import Mathlib

/-!
Shallow embedding of the appointment lifecycle engine of the CampusConnect
backend (controllers/appointment.controller.js, with the data shapes of
models/Appointment.js, models/Student.js, models/Faculty.js,
models/Availability.js and models/User.js).

The store is modelled as association lists keyed by numeric ids standing for
MongoDB ObjectIds; a request's `new Date(date)` value is modelled as a `Nat`
(the engine only ever compares the stored value for equality).  Each
controller is a function from a store and request data to an HTTP-style
response paired with the store after the controller ran; an exception caught
by the surrounding try/catch block is the 500 "Server error" response, with
exactly the writes that had already been awaited kept in the store.
Mongoose schema validation of caller-supplied text (purpose, cancelReason,
HH:MM time strings, from models/Appointment.js) is modelled by
`appointmentValid`, checked at each create/save point.
-/

inductive Status where
  | pending
  | accepted
  | rejected
  | cancelled
  | completed
  deriving DecidableEq

def statusStr : Status → String
  | .pending => "pending"
  | .accepted => "accepted"
  | .rejected => "rejected"
  | .cancelled => "cancelled"
  | .completed => "completed"

inductive Role where
  | student
  | faculty
  deriving DecidableEq

/-- Availability slot; fields as used by the appointment controller and the
spec's data model (faculty reference, day, HH:MM start/end, active flag,
booked flag). -/
structure Availability where
  faculty : Nat
  day : String
  startTime : String
  endTime : String
  isActive : Bool
  isBooked : Bool
  deriving DecidableEq

/-- Appointment document, per models/Appointment.js. -/
structure Appointment where
  student : Nat
  faculty : Nat
  availability : Nat
  date : Nat
  startTime : String
  endTime : String
  purpose : String
  status : Status
  cancelledBy : Option Role
  cancelReason : Option String
  deriving DecidableEq

/-- Student document; only the fields the appointment controller reads or
writes (user reference, name, back-reference list of appointment ids). -/
structure Student where
  user : Nat
  name : String
  appointments : List Nat
  deriving DecidableEq

/-- Faculty document; only the fields the appointment controller reads or
writes. -/
structure Faculty where
  user : Nat
  name : String
  appointments : List Nat
  deriving DecidableEq

/-- User document; the controller only reads the email. -/
structure User where
  email : String
  deriving DecidableEq

/-- The MongoDB collections touched by the appointment controller, as
association lists, plus a counter supplying fresh appointment ids. -/
structure Store where
  users : List (Nat × User)
  students : List (Nat × Student)
  faculties : List (Nat × Faculty)
  availabilities : List (Nat × Availability)
  appointments : List (Nat × Appointment)
  nextAppointmentId : Nat
  deriving DecidableEq

/-- HTTP-style controller response: status code, success flag, message and
(for successful lifecycle calls) the id of the appointment in the payload. -/
structure Resp where
  code : Nat
  success : Bool
  message : String
  data : Option Nat
  deriving DecidableEq

def mkErr (c : Nat) (m : String) : Resp :=
  { code := c, success := false, message := m, data := none }

/-- Overwrite the value stored under key `k` (a Mongoose `save()` of a
document fetched by id). -/
def setEntry (k : Nat) (v : α) (l : List (Nat × α)) : List (Nat × α) :=
  l.map fun p => if p.1 = k then (k, v) else p

def updAvail (st : Store) (k : Nat) (v : Availability) : Store :=
  { st with availabilities := setEntry k v st.availabilities }

def updAppt (st : Store) (k : Nat) (v : Appointment) : Store :=
  { st with appointments := setEntry k v st.appointments }

def updStudent (st : Store) (k : Nat) (v : Student) : Store :=
  { st with students := setEntry k v st.students }

def updFaculty (st : Store) (k : Nat) (v : Faculty) : Store :=
  { st with faculties := setEntry k v st.faculties }

/-- `Student.findOne({ user: uid })`. -/
def findStudentByUser (st : Store) (uid : Nat) : Option (Nat × Student) :=
  st.students.find? fun p => p.2.user == uid

/-- `Faculty.findOne({ user: uid })`. -/
def findFacultyByUser (st : Store) (uid : Nat) : Option (Nat × Faculty) :=
  st.faculties.find? fun p => p.2.user == uid

/-- `Appointment.findOne({ student, date, status: { $in: ["pending",
"accepted"] } })`: the double-booking guard of bookAppointment.  Note it
matches on the stored date value only, never on the time range. -/
def findConflict (st : Store) (sid d : Nat) : Option (Nat × Appointment) :=
  st.appointments.find? fun p =>
    p.2.student == sid && p.2.date == d &&
      (p.2.status == Status.pending || p.2.status == Status.accepted)

/-- The HH:MM pattern of models/Appointment.js. -/
def validHHMM (s : String) : Bool :=
  match s.toList with
  | [h1, h2, c, m1, m2] =>
      h1.isDigit && h2.isDigit && (c == ':') && m1.isDigit && m2.isDigit &&
        (h1 == '0' || h1 == '1' || (h1 == '2' && decide (h2 ≤ '3'))) &&
        decide (m1 ≤ '5')
  | _ => false

/-- Mongoose validation of an appointment document at create/save time, per
the schema of models/Appointment.js: required non-empty purpose of at most
200 characters, HH:MM times, cancelReason of at most 200 characters. -/
def appointmentValid (a : Appointment) : Bool :=
  validHHMM a.startTime && validHHMM a.endTime &&
    decide (0 < a.purpose.length) && decide (a.purpose.length ≤ 200) &&
    (match a.cancelReason with
     | some r => decide (r.length ≤ 200)
     | none => true)

/-- The raw notification transport; `sinkFails` says whether this delivery
attempt throws. -/
def sendEmailRaw (sinkFails : Bool) : Except String Unit :=
  if sinkFails then .error "send failed" else .ok ()

/-- Modelled from the spec: utils/sendEmail.js is not under src/.  The spec
describes the notification sink as best-effort fire-and-forget delivery whose
failures are caught and logged, never propagated as operation failure, so the
wrapper swallows any transport error and returns normally. -/
def sendAppointmentEmail (sinkFails : Bool) (_email _subject _text : String) :
    Except String Unit :=
  match sendEmailRaw sinkFails with
  | .ok _ => .ok ()
  | .error _ => .ok ()

/-- The appointment document created by bookAppointment: status pending,
times copied from the availability. -/
def mkAppointment (sid fid avid d : Nat) (availability : Availability)
    (purpose : String) : Appointment :=
  { student := sid, faculty := fid, availability := avid, date := d,
    startTime := availability.startTime, endTime := availability.endTime,
    purpose := purpose, status := .pending, cancelledBy := none,
    cancelReason := none }

/-- The write section of bookAppointment: insert the new appointment, flip
the slot's isBooked flag, push the new id onto the student's and the
faculty's appointment lists (in the source's order of saves). -/
def bookMutate (st : Store) (sid : Nat) (student : Student) (fid : Nat)
    (faculty : Faculty) (avid : Nat) (availability : Availability) (d : Nat)
    (purpose : String) : Nat × Store :=
  let aid := st.nextAppointmentId
  let appointment := mkAppointment sid fid avid d availability purpose
  let st1 := { st with appointments := (aid, appointment) :: st.appointments,
                       nextAppointmentId := aid + 1 }
  let st2 := updAvail st1 avid { availability with isBooked := true }
  let st3 := updStudent st2 sid
    { student with appointments := student.appointments ++ [aid] }
  let st4 := updFaculty st3 fid
    { faculty with appointments := faculty.appointments ++ [aid] }
  (aid, st4)

/-- POST /api/appointments (bookAppointment). -/
def bookAppointment (st : Store) (uid fid avid d : Nat) (purpose : String)
    (sinkFails : Bool) : Resp × Store :=
  match findStudentByUser st uid with
  | none => (mkErr 404 "Student not found", st)
  | some (sid, student) =>
    match List.lookup fid st.faculties with
    | none => (mkErr 404 "Faculty not found", st)
    | some faculty =>
      match List.lookup avid st.availabilities with
      | none => (mkErr 404 "Availability slot not found", st)
      | some availability =>
        if availability.faculty ≠ fid then
          (mkErr 400 "Availability slot does not belong to this faculty", st)
        else if ¬availability.isActive then
          (mkErr 400 "Availability slot is not active", st)
        else if availability.isBooked then
          (mkErr 400 "Availability slot is already booked", st)
        else
          match findConflict st sid d with
          | some _ => (mkErr 400 "You already have an appointment at this time", st)
          | none =>
            if ¬appointmentValid (mkAppointment sid fid avid d availability purpose) then
              (mkErr 500 "Server error", st)
            else
              match bookMutate st sid student fid faculty avid availability d purpose with
              | (aid, st4) =>
                match List.lookup student.user st4.users with
                | none => (mkErr 500 "Server error", st4)
                | some studentUser =>
                  match List.lookup faculty.user st4.users with
                  | none => (mkErr 500 "Server error", st4)
                  | some facultyUser =>
                    match sendAppointmentEmail sinkFails studentUser.email
                        "Appointment Request Submitted"
                        ("Your appointment request with " ++ faculty.name ++
                          " on " ++ toString d ++ " at " ++
                          availability.startTime ++
                          " has been submitted and is pending approval.") with
                    | .error _ => (mkErr 500 "Server error", st4)
                    | .ok _ =>
                      match sendAppointmentEmail sinkFails facultyUser.email
                          "New Appointment Request"
                          ("You have a new appointment request from " ++
                            student.name ++ " on " ++ toString d ++ " at " ++
                            availability.startTime ++ ".") with
                      | .error _ => (mkErr 500 "Server error", st4)
                      | .ok _ =>
                        ({ code := 201, success := true,
                           message := "Appointment booked successfully",
                           data := some aid }, st4)

/-- The "if rejected / cancelled / completed, release the slot" step shared
by the three transition controllers: look the availability up, and if it
still exists set isBooked to false; if it is gone, skip silently. -/
def freeSlot (st : Store) (k : Nat) : Store :=
  match List.lookup k st.availabilities with
  | some availability => updAvail st k { availability with isBooked := false }
  | none => st

/-- PUT /api/appointments/:appointmentId/status (updateAppointmentStatus). -/
def updateAppointmentStatus (st : Store) (uid aid : Nat) (status : String)
    (reason : Option String) (sinkFails : Bool) : Resp × Store :=
  if ¬(status = "accepted" ∨ status = "rejected") then
    (mkErr 400 "Invalid status. Status must be accepted or rejected", st)
  else
    match findFacultyByUser st uid with
    | none => (mkErr 404 "Faculty not found", st)
    | some (fid, faculty) =>
      match List.lookup aid st.appointments with
      | none => (mkErr 404 "Appointment not found", st)
      | some appointment =>
        if appointment.faculty ≠ fid then
          (mkErr 403 "Not authorized to update this appointment", st)
        else if appointment.status ≠ .pending then
          (mkErr 400 ("Appointment is already " ++ statusStr appointment.status), st)
        else
          let app1 : Appointment :=
            { appointment with
              status := if status = "accepted" then .accepted else .rejected,
              cancelReason :=
                if status = "rejected" then
                  match reason with
                  | some r => some r
                  | none => appointment.cancelReason
                else appointment.cancelReason }
          if ¬appointmentValid app1 then (mkErr 500 "Server error", st)
          else
            let st1 := updAppt st aid app1
            let st2 :=
              if status = "rejected" then freeSlot st1 appointment.availability
              else st1
            match List.lookup appointment.student st2.students with
            | none => (mkErr 500 "Server error", st2)
            | some student =>
              match List.lookup student.user st2.users with
              | none => (mkErr 500 "Server error", st2)
              | some studentUser =>
                match sendAppointmentEmail sinkFails studentUser.email
                    ("Appointment " ++ status)
                    ("Your appointment with " ++ faculty.name ++ " on " ++
                      toString appointment.date ++ " at " ++
                      appointment.startTime ++ " has been " ++ status ++ ".") with
                | .error _ => (mkErr 500 "Server error", st2)
                | .ok _ =>
                  ({ code := 200, success := true,
                     message := "Appointment " ++ status ++ " successfully",
                     data := some aid }, st2)

/-- The tail of cancelAppointment once the acting role has been resolved:
write the cancellation, release the slot, notify both parties. -/
def cancelFinish (st : Store) (aid : Nat) (appointment : Appointment)
    (role : Role) (reason : Option String) (sinkFails : Bool) : Resp × Store :=
  let app1 : Appointment :=
    { appointment with
      status := .cancelled,
      cancelledBy := some role,
      cancelReason :=
        match reason with
        | some r => some r
        | none => appointment.cancelReason }
  if ¬appointmentValid app1 then (mkErr 500 "Server error", st)
  else
    let st2 := freeSlot (updAppt st aid app1) appointment.availability
    match List.lookup appointment.student st2.students with
    | none => (mkErr 500 "Server error", st2)
    | some studentObj =>
      match List.lookup appointment.faculty st2.faculties with
      | none => (mkErr 500 "Server error", st2)
      | some facultyObj =>
        match List.lookup studentObj.user st2.users with
        | none => (mkErr 500 "Server error", st2)
        | some studentUser =>
          match List.lookup facultyObj.user st2.users with
          | none => (mkErr 500 "Server error", st2)
          | some facultyUser =>
            let cancelledBy :=
              match role with
              | .student => studentObj.name
              | .faculty => facultyObj.name
            let reasonText :=
              match reason with
              | some r => " Reason: " ++ r
              | none => ""
            match sendAppointmentEmail sinkFails studentUser.email
                "Appointment Cancelled"
                ("Your appointment with " ++ facultyObj.name ++ " on " ++
                  toString appointment.date ++ " at " ++ appointment.startTime ++
                  " has been cancelled by " ++ cancelledBy ++ "." ++ reasonText) with
            | .error _ => (mkErr 500 "Server error", st2)
            | .ok _ =>
              match sendAppointmentEmail sinkFails facultyUser.email
                  "Appointment Cancelled"
                  ("Your appointment with " ++ studentObj.name ++ " on " ++
                    toString appointment.date ++ " at " ++ appointment.startTime ++
                    " has been cancelled by " ++ cancelledBy ++ "." ++ reasonText) with
              | .error _ => (mkErr 500 "Server error", st2)
              | .ok _ =>
                ({ code := 200, success := true,
                   message := "Appointment cancelled successfully",
                   data := some aid }, st2)

/-- PUT /api/appointments/:appointmentId/cancel (cancelAppointment).  The
terminal-status checks run before the caller's identity is resolved; the
student lookup is probed before the faculty lookup. -/
def cancelAppointment (st : Store) (uid aid : Nat) (reason : Option String)
    (sinkFails : Bool) : Resp × Store :=
  match List.lookup aid st.appointments with
  | none => (mkErr 404 "Appointment not found", st)
  | some appointment =>
    if appointment.status = .cancelled then
      (mkErr 400 "Appointment is already cancelled", st)
    else if appointment.status = .rejected then
      (mkErr 400 "Cannot cancel a rejected appointment", st)
    else
      match findStudentByUser st uid with
      | some (sid, _) =>
        if appointment.student ≠ sid then
          (mkErr 403 "Not authorized to cancel this appointment", st)
        else cancelFinish st aid appointment .student reason sinkFails
      | none =>
        match findFacultyByUser st uid with
        | none => (mkErr 404 "User not found", st)
        | some (fid, _) =>
          if appointment.faculty ≠ fid then
            (mkErr 403 "Not authorized to cancel this appointment", st)
          else cancelFinish st aid appointment .faculty reason sinkFails

/-- PUT /api/appointments/:appointmentId/complete (completeAppointment). -/
def completeAppointment (st : Store) (uid aid : Nat) (sinkFails : Bool) :
    Resp × Store :=
  match findFacultyByUser st uid with
  | none => (mkErr 404 "Faculty not found", st)
  | some (fid, faculty) =>
    match List.lookup aid st.appointments with
    | none => (mkErr 404 "Appointment not found", st)
    | some appointment =>
      if appointment.faculty ≠ fid then
        (mkErr 403 "Not authorized to complete this appointment", st)
      else if appointment.status ≠ .accepted then
        (mkErr 400 ("Appointment must be accepted before it can be completed. Current status: "
          ++ statusStr appointment.status), st)
      else
        let app1 : Appointment := { appointment with status := .completed }
        if ¬appointmentValid app1 then (mkErr 500 "Server error", st)
        else
          let st2 := freeSlot (updAppt st aid app1) appointment.availability
          match List.lookup appointment.student st2.students with
          | none => (mkErr 500 "Server error", st2)
          | some student =>
            match List.lookup student.user st2.users with
            | none => (mkErr 500 "Server error", st2)
            | some studentUser =>
              match sendAppointmentEmail sinkFails studentUser.email
                  "Appointment Completed"
                  ("Your appointment with " ++ faculty.name ++ " on " ++
                    toString appointment.date ++ " at " ++
                    appointment.startTime ++ " has been marked as completed.") with
              | .error _ => (mkErr 500 "Server error", st2)
              | .ok _ =>
                ({ code := 200, success := true,
                   message := "Appointment marked as completed",
                   data := some aid }, st2)

/-! ## Slot-consistency invariant and the concurrency model of book -/

/-- An appointment in a state that holds its slot (pending or accepted). -/
def isNonTerminal (a : Appointment) : Bool :=
  a.status == .pending || a.status == .accepted

def apPred (k : Nat) (p : Nat × Appointment) : Bool :=
  p.2.availability == k && isNonTerminal p.2

/-- The non-terminal appointments that reference slot `k`. -/
def slotAppsL (l : List (Nat × Appointment)) (k : Nat) : List (Nat × Appointment) :=
  l.filter (apPred k)

/-- Slot-consistency invariant of the store: appointment ids are distinct
and below the fresh-id counter, and every availability slot isBooked exactly
when some pending/accepted appointment references it, with at most one such
appointment per slot. -/
def SlotInv (st : Store) : Prop :=
  (st.appointments.map Prod.fst).Nodup ∧
  (∀ q ∈ st.appointments, q.1 < st.nextAppointmentId) ∧
  ∀ q ∈ st.availabilities,
    (q.2.isBooked = true ↔ slotAppsL st.appointments q.1 ≠ []) ∧
    (slotAppsL st.appointments q.1).length ≤ 1

/-- The read/validation phase of bookAppointment, as one predicate: all of
its precondition checks pass on the given store snapshot.  Used to model two
requests whose reads interleave before either write. -/
def bookChecksPass (st : Store) (uid fid avid d : Nat) (purpose : String) : Bool :=
  match findStudentByUser st uid with
  | none => false
  | some (sid, _) =>
    match List.lookup fid st.faculties with
    | none => false
    | some _ =>
      match List.lookup avid st.availabilities with
      | none => false
      | some availability =>
        (availability.faculty == fid) && availability.isActive &&
          !availability.isBooked && (findConflict st sid d).isNone &&
          appointmentValid (mkAppointment sid fid avid d availability purpose)

/-- The write phase of bookAppointment, applied without re-running the
checks: what a request performs after its own (possibly stale) reads have
passed. -/
def bookCommit (st : Store) (uid fid avid d : Nat) (purpose : String) : Store :=
  match findStudentByUser st uid with
  | none => st
  | some (sid, student) =>
    match List.lookup fid st.faculties with
    | none => st
    | some faculty =>
      match List.lookup avid st.availabilities with
      | none => st
      | some availability =>
        (bookMutate st sid student fid faculty avid availability d purpose).2

/-! ## Concrete stores used by witnesses and counterexamples -/

/-- A clean bookable store: student 10 (user 1), faculty 20 (user 2), one
active unbooked slot 30. -/
def st0 : Store :=
  { users := [(1, ⟨"asha@campus.edu"⟩), (2, ⟨"rao@campus.edu"⟩)],
    students := [(10, ⟨1, "Asha", []⟩)],
    faculties := [(20, ⟨2, "Dr Rao", []⟩)],
    availabilities := [(30, ⟨20, "Monday", "09:00", "10:00", true, false⟩)],
    appointments := [],
    nextAppointmentId := 100 }

/-- st0 with a second student (11, user 3) wanting the same slot. -/
def raceSt : Store :=
  { users := [(1, ⟨"asha@campus.edu"⟩), (2, ⟨"rao@campus.edu"⟩),
              (3, ⟨"vik@campus.edu"⟩)],
    students := [(10, ⟨1, "Asha", []⟩), (11, ⟨3, "Vik", []⟩)],
    faculties := [(20, ⟨2, "Dr Rao", []⟩)],
    availabilities := [(30, ⟨20, "Monday", "09:00", "10:00", true, false⟩)],
    appointments := [],
    nextAppointmentId := 100 }

/-- A store holding one appointment in each lifecycle state (ids 40..44 on
slots 30..34), all between student 10 (user 1) and faculty 20 (user 2). -/
def stMix : Store :=
  { users := [(1, ⟨"asha@campus.edu"⟩), (2, ⟨"rao@campus.edu"⟩)],
    students := [(10, ⟨1, "Asha", [40, 41, 42, 43, 44]⟩)],
    faculties := [(20, ⟨2, "Dr Rao", [40, 41, 42, 43, 44]⟩)],
    availabilities :=
      [(30, ⟨20, "Monday", "09:00", "10:00", true, true⟩),
       (31, ⟨20, "Tuesday", "10:00", "11:00", true, true⟩),
       (32, ⟨20, "Wednesday", "11:00", "12:00", true, false⟩),
       (33, ⟨20, "Thursday", "12:00", "13:00", true, false⟩),
       (34, ⟨20, "Friday", "13:00", "14:00", true, false⟩)],
    appointments :=
      [(40, ⟨10, 20, 30, 5, "09:00", "10:00", "Thesis help", .pending, none, none⟩),
       (41, ⟨10, 20, 31, 6, "10:00", "11:00", "Project review", .accepted, none, none⟩),
       (42, ⟨10, 20, 32, 7, "11:00", "12:00", "Grade query", .rejected, none, some "conflict"⟩),
       (43, ⟨10, 20, 33, 8, "12:00", "13:00", "Advice", .cancelled, some .student, none⟩),
       (44, ⟨10, 20, 34, 9, "13:00", "14:00", "Wrap up", .completed, none, none⟩)],
    nextAppointmentId := 100 }

/-- A store whose pending appointment 45 and accepted appointment 46 both
reference slot 77, which is absent from the availabilities collection. -/
def stNoSlot : Store :=
  { users := [(1, ⟨"asha@campus.edu"⟩), (2, ⟨"rao@campus.edu"⟩)],
    students := [(10, ⟨1, "Asha", [45, 46]⟩)],
    faculties := [(20, ⟨2, "Dr Rao", [45, 46]⟩)],
    availabilities := [],
    appointments :=
      [(45, ⟨10, 20, 77, 5, "09:00", "10:00", "Thesis help", .pending, none, none⟩),
       (46, ⟨10, 20, 77, 6, "10:00", "11:00", "Project review", .accepted, none, none⟩)],
    nextAppointmentId := 100 }

instance (st : Store) : Decidable (SlotInv st) := by
  unfold SlotInv
  infer_instance

/-! ## Association-list lemmas -/

theorem lookup_mem {α : Type} {l : List (Nat × α)} {k : Nat} {v : α}
    (h : List.lookup k l = some v) : (k, v) ∈ l := by
  induction l with
  | nil => simp at h
  | cons p t ih =>
    rcases p with ⟨k1, v1⟩
    rw [List.lookup_cons] at h
    by_cases hk : k = k1
    · subst hk
      simp only [beq_self_eq_true, Option.some.injEq] at h
      subst h
      exact List.mem_cons_self _ _
    · have hbe : (k == k1) = false := by simp [hk]
      rw [hbe] at h
      exact List.mem_cons_of_mem _ (ih h)

theorem lookup_none_ne {α : Type} {l : List (Nat × α)} {k : Nat}
    (h : List.lookup k l = none) : ∀ q ∈ l, q.1 ≠ k := by
  induction l with
  | nil => intro q hq; simp at hq
  | cons p t ih =>
    rcases p with ⟨k1, v1⟩
    rw [List.lookup_cons] at h
    by_cases hk : k = k1
    · subst hk
      simp only [beq_self_eq_true] at h
      simp at h
    · have hbe : (k == k1) = false := by simp [hk]
      rw [hbe] at h
      intro q hq
      rcases List.mem_cons.mp hq with rfl | hq2
      · exact fun hh => hk hh.symm
      · exact ih h q hq2

theorem setEntry_no_key {α : Type} {l : List (Nat × α)} {k : Nat} (v : α)
    (h : ∀ q ∈ l, q.1 ≠ k) : setEntry k v l = l := by
  induction l with
  | nil => rfl
  | cons p t ih =>
    simp only [setEntry, List.map_cons]
    rw [if_neg (h p (List.mem_cons_self p t))]
    congr 1
    exact ih fun q hq => h q (List.mem_cons_of_mem _ hq)

theorem setEntry_decomp {α : Type} (l1 l2 : List (Nat × α)) (k : Nat) (v0 v : α)
    (h1 : ∀ q ∈ l1, q.1 ≠ k) (h2 : ∀ q ∈ l2, q.1 ≠ k) :
    setEntry k v (l1 ++ (k, v0) :: l2) = l1 ++ (k, v) :: l2 := by
  have e1 : setEntry k v l1 = l1 := setEntry_no_key v h1
  have e2 : setEntry k v l2 = l2 := setEntry_no_key v h2
  simp only [setEntry, List.map_append, List.map_cons] at e1 e2 ⊢
  simp [e1, e2]

theorem setEntry_keys {α : Type} (l : List (Nat × α)) (k : Nat) (v : α) :
    (setEntry k v l).map Prod.fst = l.map Prod.fst := by
  induction l with
  | nil => rfl
  | cons p t ih =>
    rcases p with ⟨k1, v1⟩
    simp only [setEntry, List.map_cons] at ih ⊢
    try dsimp only
    by_cases h1 : k1 = k
    · rw [if_pos h1]
      try dsimp only
      rw [ih, h1]
    · rw [if_neg h1]
      try dsimp only
      rw [ih]

theorem lookup_setEntry_self {α : Type} (l : List (Nat × α)) (k : Nat) (v : α) :
    List.lookup k (setEntry k v l) = (List.lookup k l).map fun _ => v := by
  induction l with
  | nil => simp [setEntry]
  | cons p t ih =>
    rcases p with ⟨k1, v1⟩
    simp only [setEntry, List.map_cons]
    try dsimp only
    by_cases h1 : k1 = k
    · subst h1
      rw [if_pos rfl, List.lookup_cons, List.lookup_cons]
      try dsimp only
      rw [show (k1 == k1) = true by simp]
      rfl
    · rw [if_neg h1, List.lookup_cons, List.lookup_cons]
      try dsimp only
      rw [show (k == k1) = false by simp; exact fun h => h1 h.symm]
      exact ih

theorem lookup_setEntry_ne {α : Type} (l : List (Nat × α)) {k j : Nat} (v : α)
    (hjk : j ≠ k) : List.lookup j (setEntry k v l) = List.lookup j l := by
  induction l with
  | nil => rfl
  | cons p t ih =>
    rcases p with ⟨k1, v1⟩
    simp only [setEntry, List.map_cons]
    try dsimp only
    by_cases h1 : k1 = k
    · subst h1
      rw [if_pos rfl, List.lookup_cons, List.lookup_cons]
      try dsimp only
      rw [show (j == k1) = false by simp [hjk]]
      exact ih
    · rw [if_neg h1, List.lookup_cons, List.lookup_cons]
      try dsimp only
      cases hbe : (j == k1)
      · exact ih
      · rfl

theorem lookup_decomp {α : Type} {l : List (Nat × α)} {k : Nat} {v : α}
    (h : List.lookup k l = some v) :
    ∃ l1 l2, l = l1 ++ (k, v) :: l2 ∧ ∀ q ∈ l1, q.1 ≠ k := by
  induction l with
  | nil => simp at h
  | cons p t ih =>
    rcases p with ⟨k1, v1⟩
    by_cases hk : k = k1
    · subst hk
      rw [List.lookup_cons] at h
      simp only [beq_self_eq_true, Option.some.injEq] at h
      subst h
      exact ⟨[], t, rfl, by simp⟩
    · rw [List.lookup_cons] at h
      have hbe : (k == k1) = false := by simp [hk]
      rw [hbe] at h
      obtain ⟨l1, l2, rfl, hl1⟩ := ih h
      refine ⟨(k1, v1) :: l1, l2, rfl, ?_⟩
      intro q hq
      rcases List.mem_cons.mp hq with rfl | hq2
      · exact fun hh => hk hh.symm
      · exact hl1 q hq2

theorem nodup_decomp_right {α : Type} {l1 l2 : List (Nat × α)} {k : Nat} {v : α}
    (h : ((l1 ++ (k, v) :: l2).map Prod.fst).Nodup) : ∀ q ∈ l2, q.1 ≠ k := by
  intro q hq hqk
  rw [List.map_append, List.map_cons] at h
  have h2 := List.nodup_cons.mp (List.nodup_append.mp h).2.1
  have hmem : q.1 ∈ List.map Prod.fst l2 := List.mem_map_of_mem Prod.fst hq
  rw [hqk] at hmem
  exact h2.1 hmem

theorem pair_eq_parts {α β : Type} {a r : α} {b s : β} (h : (a, b) = (r, s)) :
    r = a ∧ s = b := by
  injection h with h1 h2
  exact ⟨h1.symm, h2.symm⟩

/-! ## Store projection lemmas -/

@[simp] theorem updAvail_appointments (st : Store) (k : Nat) (v : Availability) :
    (updAvail st k v).appointments = st.appointments := rfl

@[simp] theorem updAvail_availabilities (st : Store) (k : Nat) (v : Availability) :
    (updAvail st k v).availabilities = setEntry k v st.availabilities := rfl

@[simp] theorem updAvail_nextId (st : Store) (k : Nat) (v : Availability) :
    (updAvail st k v).nextAppointmentId = st.nextAppointmentId := rfl

@[simp] theorem updAppt_appointments (st : Store) (k : Nat) (v : Appointment) :
    (updAppt st k v).appointments = setEntry k v st.appointments := rfl

@[simp] theorem updAppt_availabilities (st : Store) (k : Nat) (v : Appointment) :
    (updAppt st k v).availabilities = st.availabilities := rfl

@[simp] theorem updAppt_students (st : Store) (k : Nat) (v : Appointment) :
    (updAppt st k v).students = st.students := rfl

@[simp] theorem updAppt_faculties (st : Store) (k : Nat) (v : Appointment) :
    (updAppt st k v).faculties = st.faculties := rfl

@[simp] theorem updAppt_users (st : Store) (k : Nat) (v : Appointment) :
    (updAppt st k v).users = st.users := rfl

@[simp] theorem updAppt_nextId (st : Store) (k : Nat) (v : Appointment) :
    (updAppt st k v).nextAppointmentId = st.nextAppointmentId := rfl

theorem freeSlot_appointments (st : Store) (k : Nat) :
    (freeSlot st k).appointments = st.appointments := by
  unfold freeSlot
  cases List.lookup k st.availabilities <;> rfl

theorem freeSlot_nextId (st : Store) (k : Nat) :
    (freeSlot st k).nextAppointmentId = st.nextAppointmentId := by
  unfold freeSlot
  cases List.lookup k st.availabilities <;> rfl

theorem freeSlot_students (st : Store) (k : Nat) :
    (freeSlot st k).students = st.students := by
  unfold freeSlot
  cases List.lookup k st.availabilities <;> rfl

theorem freeSlot_users (st : Store) (k : Nat) :
    (freeSlot st k).users = st.users := by
  unfold freeSlot
  cases List.lookup k st.availabilities <;> rfl

theorem freeSlot_faculties (st : Store) (k : Nat) :
    (freeSlot st k).faculties = st.faculties := by
  unfold freeSlot
  cases List.lookup k st.availabilities <;> rfl

@[simp] theorem bookMutate_fst (st : Store) (sid : Nat) (student : Student)
    (fid : Nat) (faculty : Faculty) (avid : Nat) (availability : Availability)
    (d : Nat) (p : String) :
    (bookMutate st sid student fid faculty avid availability d p).1 =
      st.nextAppointmentId := rfl

@[simp] theorem bookMutate_appointments (st : Store) (sid : Nat) (student : Student)
    (fid : Nat) (faculty : Faculty) (avid : Nat) (availability : Availability)
    (d : Nat) (p : String) :
    (bookMutate st sid student fid faculty avid availability d p).2.appointments =
      (st.nextAppointmentId, mkAppointment sid fid avid d availability p) ::
        st.appointments := rfl

@[simp] theorem bookMutate_availabilities (st : Store) (sid : Nat) (student : Student)
    (fid : Nat) (faculty : Faculty) (avid : Nat) (availability : Availability)
    (d : Nat) (p : String) :
    (bookMutate st sid student fid faculty avid availability d p).2.availabilities =
      setEntry avid { availability with isBooked := true } st.availabilities := rfl

@[simp] theorem bookMutate_users (st : Store) (sid : Nat) (student : Student)
    (fid : Nat) (faculty : Faculty) (avid : Nat) (availability : Availability)
    (d : Nat) (p : String) :
    (bookMutate st sid student fid faculty avid availability d p).2.users =
      st.users := rfl

@[simp] theorem bookMutate_nextId (st : Store) (sid : Nat) (student : Student)
    (fid : Nat) (faculty : Faculty) (avid : Nat) (availability : Availability)
    (d : Nat) (p : String) :
    (bookMutate st sid student fid faculty avid availability d p).2.nextAppointmentId =
      st.nextAppointmentId + 1 := rfl

/-! ## Invariant preservation: core lemmas -/

theorem nodup_updAppt (st : Store) (aid : Nat) (a1 : Appointment)
    (hnd : (st.appointments.map Prod.fst).Nodup) :
    (((updAppt st aid a1).appointments).map Prod.fst).Nodup := by
  show ((setEntry aid a1 st.appointments).map Prod.fst).Nodup
  rw [setEntry_keys]
  exact hnd

theorem fresh_updAppt (st : Store) (aid : Nat) (a1 : Appointment)
    (hfresh : ∀ q ∈ st.appointments, q.1 < st.nextAppointmentId) :
    ∀ q ∈ (updAppt st aid a1).appointments,
      q.1 < (updAppt st aid a1).nextAppointmentId := by
  intro q hq
  show q.1 < st.nextAppointmentId
  obtain ⟨p0, hp0, hq0⟩ := List.mem_map.mp hq
  by_cases hp : p0.1 = aid
  · have hq1 : q.1 = p0.1 := by rw [← hq0, if_pos hp]; exact hp.symm
    rw [hq1]; exact hfresh p0 hp0
  · have hq1 : q.1 = p0.1 := by rw [← hq0, if_neg hp]
    rw [hq1]; exact hfresh p0 hp0

theorem slotInv_updAppt_keep (st : Store) (aid : Nat) (a0 a1 : Appointment)
    (hInv : SlotInv st) (hL : List.lookup aid st.appointments = some a0)
    (hav : a1.availability = a0.availability)
    (hnt : isNonTerminal a1 = isNonTerminal a0) :
    SlotInv (updAppt st aid a1) := by
  obtain ⟨hnd, hfresh, hslots⟩ := hInv
  obtain ⟨l1, l2, hdec, hl1⟩ := lookup_decomp hL
  have hl2 : ∀ q ∈ l2, q.1 ≠ aid := nodup_decomp_right (hdec ▸ hnd)
  have happ : setEntry aid a1 st.appointments = l1 ++ (aid, a1) :: l2 := by
    rw [hdec]
    exact setEntry_decomp l1 l2 aid a0 a1 hl1 hl2
  refine ⟨nodup_updAppt st aid a1 hnd, fresh_updAppt st aid a1 hfresh, ?_⟩
  intro q hq
  have hq' : q ∈ st.availabilities := hq
  have hOld := hslots q hq'
  simp only [updAppt_appointments, happ]
  rw [hdec] at hOld
  have hpred : apPred q.1 (aid, a1) = apPred q.1 (aid, a0) := by
    simp [apPred, hav, hnt]
  simp only [slotAppsL, List.filter_append, List.filter_cons] at hOld ⊢
  rw [hpred]
  cases hP : apPred q.1 (aid, a0)
  · rw [hP] at hOld
    simp only [Bool.false_eq_true, if_false] at hOld ⊢
    exact hOld
  · rw [hP] at hOld
    simp only [if_true] at hOld ⊢
    constructor
    · constructor
      · intro _; simp
      · intro _
        exact hOld.1.mpr (by simp)
    · have h2 := hOld.2
      simp only [List.length_append, List.length_cons] at h2 ⊢
      omega

theorem slotInv_updAppt_release (st : Store) (aid : Nat) (a0 a1 : Appointment)
    (hInv : SlotInv st) (hL : List.lookup aid st.appointments = some a0)
    (_hav : a1.availability = a0.availability)
    (hnt0 : isNonTerminal a0 = true) (hnt1 : isNonTerminal a1 = false) :
    SlotInv (freeSlot (updAppt st aid a1) a0.availability) := by
  obtain ⟨hnd, hfresh, hslots⟩ := hInv
  obtain ⟨l1, l2, hdec, hl1⟩ := lookup_decomp hL
  have hl2 : ∀ q ∈ l2, q.1 ≠ aid := nodup_decomp_right (hdec ▸ hnd)
  have happ : setEntry aid a1 st.appointments = l1 ++ (aid, a1) :: l2 := by
    rw [hdec]
    exact setEntry_decomp l1 l2 aid a0 a1 hl1 hl2
  have hSlotNew : ∀ j, slotAppsL (l1 ++ (aid, a1) :: l2) j =
      slotAppsL l1 j ++ slotAppsL l2 j := by
    intro j
    have hmid : apPred j (aid, a1) = false := by
      simp [apPred, hnt1]
    simp [slotAppsL, List.filter_append, List.filter_cons, hmid]
  have hSlotOld : ∀ j, j ≠ a0.availability →
      slotAppsL st.appointments j = slotAppsL l1 j ++ slotAppsL l2 j := by
    intro j hj
    have hne : (a0.availability == j) = false := by
      simp only [beq_eq_false_iff_ne]
      exact fun hh => hj hh.symm
    have hmid : apPred j (aid, a0) = false := by
      simp [apPred, hne]
    rw [hdec]
    simp [slotAppsL, List.filter_append, List.filter_cons, hmid]
  have hEmptyAtS : ∀ av, List.lookup a0.availability st.availabilities = some av →
      slotAppsL (l1 ++ (aid, a1) :: l2) a0.availability = [] := by
    intro av hAv
    have hb := (hslots (a0.availability, av) (lookup_mem hAv)).2
    rw [hdec] at hb
    have hmid : apPred a0.availability (aid, a0) = true := by
      simp [apPred, hnt0]
    simp only [slotAppsL, List.filter_append, List.filter_cons, hmid, if_true,
      List.length_append, List.length_cons] at hb
    have hF1 : (List.filter (apPred a0.availability) l1).length = 0 := by omega
    have hF2 : (List.filter (apPred a0.availability) l2).length = 0 := by omega
    rw [hSlotNew]
    simp only [slotAppsL]
    rw [List.length_eq_zero.mp hF1, List.length_eq_zero.mp hF2]
    rfl
  cases hAv : List.lookup a0.availability st.availabilities with
  | none =>
    have hfs : freeSlot (updAppt st aid a1) a0.availability = updAppt st aid a1 := by
      unfold freeSlot
      rw [show List.lookup a0.availability (updAppt st aid a1).availabilities
        = none from hAv]
    rw [hfs]
    refine ⟨nodup_updAppt st aid a1 hnd, fresh_updAppt st aid a1 hfresh, ?_⟩
    intro q hq
    have hq' : q ∈ st.availabilities := hq
    have hqk : q.1 ≠ a0.availability := lookup_none_ne hAv q hq'
    have hOld := hslots q hq'
    simp only [updAppt_appointments, happ]
    rw [hSlotNew, ← hSlotOld q.1 hqk]
    exact hOld
  | some av =>
    have hfs : freeSlot (updAppt st aid a1) a0.availability =
        updAvail (updAppt st aid a1) a0.availability { av with isBooked := false } := by
      unfold freeSlot
      rw [show List.lookup a0.availability (updAppt st aid a1).availabilities
        = some av from hAv]
    rw [hfs]
    refine ⟨nodup_updAppt st aid a1 hnd, fresh_updAppt st aid a1 hfresh, ?_⟩
    intro q hq
    simp only [updAvail_availabilities, updAppt_availabilities] at hq
    simp only [updAvail_appointments, updAppt_appointments, happ]
    obtain ⟨p0, hp0, hq0⟩ := List.mem_map.mp hq
    by_cases hp : p0.1 = a0.availability
    · have hqeq : q = (a0.availability, { av with isBooked := false }) := by
        rw [← hq0, if_pos hp]
      subst hqeq
      have hE := hEmptyAtS av hAv
      simp [hE]
    · have hqeq : q = p0 := by rw [← hq0, if_neg hp]
      rw [hqeq]
      have hOld := hslots p0 hp0
      rw [hSlotNew, ← hSlotOld p0.1 hp]
      exact hOld

theorem slotInv_bookMutate (st : Store) (sid : Nat) (student : Student) (fid : Nat)
    (faculty : Faculty) (avid : Nat) (availability : Availability) (d : Nat)
    (p : String) (hInv : SlotInv st)
    (hA : List.lookup avid st.availabilities = some availability)
    (hB : availability.isBooked = false) :
    SlotInv (bookMutate st sid student fid faculty avid availability d p).2 := by
  obtain ⟨hnd, hfresh, hslots⟩ := hInv
  have hEmpty : slotAppsL st.appointments avid = [] := by
    have h1 := (hslots (avid, availability) (lookup_mem hA)).1
    by_contra hne
    have := h1.mpr hne
    rw [hB] at this
    exact absurd this (by simp)
  refine ⟨?_, ?_, ?_⟩
  · simp only [bookMutate_appointments, List.map_cons, List.nodup_cons]
    constructor
    · intro hmem
      obtain ⟨q, hq, hq1⟩ := List.mem_map.mp hmem
      have := hfresh q hq
      omega
    · exact hnd
  · intro q hq
    simp only [bookMutate_appointments] at hq
    simp only [bookMutate_nextId]
    rcases List.mem_cons.mp hq with rfl | hq2
    · show st.nextAppointmentId < st.nextAppointmentId + 1
      omega
    · have := hfresh q hq2
      omega
  · intro q hq
    simp only [bookMutate_availabilities] at hq
    simp only [bookMutate_appointments, bookMutate_nextId]
    obtain ⟨p0, hp0, hq0⟩ := List.mem_map.mp hq
    by_cases hp : p0.1 = avid
    · have hqeq : q = (avid, { availability with isBooked := true }) := by
        rw [← hq0, if_pos hp]
      subst hqeq
      have hPred : apPred avid
          (st.nextAppointmentId, mkAppointment sid fid avid d availability p) = true := by
        simp [apPred, mkAppointment, isNonTerminal]
      simp only [slotAppsL, List.filter_cons, hPred, if_true]
      have hE : List.filter (apPred avid) st.appointments = [] := hEmpty
      simp [hE]
    · have hqeq : q = p0 := by rw [← hq0, if_neg hp]
      rw [hqeq]
      have hPred : apPred p0.1
          (st.nextAppointmentId, mkAppointment sid fid avid d availability p) = false := by
        have hne : ((mkAppointment sid fid avid d availability p).availability == p0.1)
            = false := by
          simp only [mkAppointment, beq_eq_false_iff_ne]
          exact fun hh => hp hh.symm
        simp [apPred, hne]
      simp only [slotAppsL, List.filter_cons, hPred, Bool.false_eq_true, if_false]
      exact hslots p0 hp0

theorem sendAppointmentEmail_ok (sinkFails : Bool) (e s b : String) :
    sendAppointmentEmail sinkFails e s b = Except.ok () := by
  cases sinkFails <;> rfl

/-! ## Invariant preservation by each controller -/

theorem slotInv_bookAppointment (st : Store) (uid fid avid d : Nat) (p : String)
    (f : Bool) (h : SlotInv st) : SlotInv (bookAppointment st uid fid avid d p f).2 := by
  unfold bookAppointment
  cases hS : findStudentByUser st uid with
  | none => exact h
  | some sp =>
    obtain ⟨sid, student⟩ := sp
    cases hF : List.lookup fid st.faculties with
    | none => exact h
    | some faculty =>
      cases hA : List.lookup avid st.availabilities with
      | none => exact h
      | some availability =>
        dsimp only
        by_cases h1 : availability.faculty ≠ fid
        · rw [if_pos h1]; exact h
        rw [if_neg h1]
        by_cases h2 : ¬availability.isActive
        · rw [if_pos h2]; exact h
        rw [if_neg h2]
        by_cases h3 : availability.isBooked = true
        · rw [if_pos h3]; exact h
        rw [if_neg h3]
        have hB : availability.isBooked = false := by simpa using h3
        cases hC : findConflict st sid d with
        | some c => exact h
        | none =>
          dsimp only
          cases hval : appointmentValid (mkAppointment sid fid avid d availability p) with
          | false =>
            rw [if_pos (by simp)]
            exact h
          | true =>
            rw [if_neg (by simp)]
            have hInv4 : SlotInv (bookMutate st sid student fid faculty avid availability d p).2 :=
              slotInv_bookMutate st sid student fid faculty avid availability d p h hA hB
            rcases hM : bookMutate st sid student fid faculty avid availability d p with ⟨aid, st4⟩
            rw [hM] at hInv4
            cases hU1 : List.lookup student.user st4.users with
            | none => exact hInv4
            | some su =>
              cases hU2 : List.lookup faculty.user st4.users with
              | none => exact hInv4
              | some fu => cases f <;> exact hInv4

theorem slotInv_updateAppointmentStatus (st : Store) (uid aid : Nat) (status : String)
    (reason : Option String) (f : Bool) (h : SlotInv st) :
    SlotInv (updateAppointmentStatus st uid aid status reason f).2 := by
  unfold updateAppointmentStatus
  by_cases hv : status = "accepted" ∨ status = "rejected"
  · rw [if_neg (not_not_intro hv)]
    cases hF : findFacultyByUser st uid with
    | none => exact h
    | some fp =>
      obtain ⟨fid, faculty⟩ := fp
      cases hL : List.lookup aid st.appointments with
      | none => exact h
      | some appointment =>
        dsimp only
        by_cases h1 : appointment.faculty ≠ fid
        · rw [if_pos h1]; exact h
        rw [if_neg h1]
        by_cases h2 : appointment.status ≠ Status.pending
        · rw [if_pos h2]; exact h
        rw [if_neg h2]
        have hp : appointment.status = Status.pending := not_not.mp h2
        rcases hv with hacc | hrej
        · subst hacc
          rw [if_pos (rfl : ("accepted" : String) = "accepted"),
              if_neg (by decide : ¬ ("accepted" : String) = "rejected"),
              if_neg (by decide : ¬ ("accepted" : String) = "rejected")]
          have hInv2 : SlotInv (updAppt st aid
              { appointment with
                status := Status.accepted,
                cancelReason := appointment.cancelReason }) :=
            slotInv_updAppt_keep st aid appointment _ h hL rfl
              (by simp [isNonTerminal, hp])
          repeat' split
          all_goals first | exact h | exact hInv2
        · subst hrej
          rw [if_neg (by decide : ¬ ("rejected" : String) = "accepted"),
              if_pos (rfl : ("rejected" : String) = "rejected"),
              if_pos (rfl : ("rejected" : String) = "rejected")]
          cases reason with
          | some r =>
            try dsimp only
            have hInv2 : SlotInv (freeSlot (updAppt st aid
                { appointment with
                  status := Status.rejected,
                  cancelReason := some r }) appointment.availability) :=
              slotInv_updAppt_release st aid appointment _ h hL rfl
                (by simp [isNonTerminal, hp]) (by simp [isNonTerminal])
            repeat' split
            all_goals first | exact h | exact hInv2
          | none =>
            try dsimp only
            have hInv2 : SlotInv (freeSlot (updAppt st aid
                { appointment with
                  status := Status.rejected,
                  cancelReason := appointment.cancelReason }) appointment.availability) :=
              slotInv_updAppt_release st aid appointment _ h hL rfl
                (by simp [isNonTerminal, hp]) (by simp [isNonTerminal])
            repeat' split
            all_goals first | exact h | exact hInv2
  · rw [if_pos hv]; exact h

theorem slotInv_cancelFinish (st : Store) (aid : Nat) (appointment : Appointment)
    (role : Role) (reason : Option String) (f : Bool) (h : SlotInv st)
    (hL : List.lookup aid st.appointments = some appointment)
    (hnt0 : isNonTerminal appointment = true) :
    SlotInv (cancelFinish st aid appointment role reason f).2 := by
  unfold cancelFinish
  cases reason with
  | some r =>
    try dsimp only
    have hInv2 : SlotInv (freeSlot (updAppt st aid
        { appointment with
          status := Status.cancelled,
          cancelledBy := some role,
          cancelReason := some r }) appointment.availability) :=
      slotInv_updAppt_release st aid appointment _ h hL rfl hnt0
        (by simp [isNonTerminal])
    repeat' split
    all_goals first | exact h | exact hInv2
  | none =>
    try dsimp only
    have hInv2 : SlotInv (freeSlot (updAppt st aid
        { appointment with
          status := Status.cancelled,
          cancelledBy := some role,
          cancelReason := appointment.cancelReason }) appointment.availability) :=
      slotInv_updAppt_release st aid appointment _ h hL rfl hnt0
        (by simp [isNonTerminal])
    repeat' split
    all_goals first | exact h | exact hInv2

theorem slotInv_cancelAppointment (st : Store) (uid aid : Nat) (reason : Option String)
    (f : Bool) (h : SlotInv st)
    (hterm : ∀ a, List.lookup aid st.appointments = some a →
      a.status ≠ Status.completed) :
    SlotInv (cancelAppointment st uid aid reason f).2 := by
  unfold cancelAppointment
  cases hL : List.lookup aid st.appointments with
  | none => exact h
  | some appointment =>
    dsimp only
    by_cases hc : appointment.status = Status.cancelled
    · rw [if_pos hc]; exact h
    rw [if_neg hc]
    by_cases hr : appointment.status = Status.rejected
    · rw [if_pos hr]; exact h
    rw [if_neg hr]
    have hnt0 : isNonTerminal appointment = true := by
      have hcomp := hterm appointment hL
      cases hst : appointment.status <;> simp_all [isNonTerminal]
    cases hS : findStudentByUser st uid with
    | some sp =>
      obtain ⟨sid, stu⟩ := sp
      dsimp only
      by_cases ho : appointment.student ≠ sid
      · rw [if_pos ho]; exact h
      rw [if_neg ho]
      exact slotInv_cancelFinish st aid appointment .student reason f h hL hnt0
    | none =>
      cases hF : findFacultyByUser st uid with
      | none => exact h
      | some fp =>
        obtain ⟨fid, fac⟩ := fp
        dsimp only
        by_cases ho : appointment.faculty ≠ fid
        · rw [if_pos ho]; exact h
        rw [if_neg ho]
        exact slotInv_cancelFinish st aid appointment .faculty reason f h hL hnt0

theorem slotInv_completeAppointment (st : Store) (uid aid : Nat) (f : Bool)
    (h : SlotInv st) : SlotInv (completeAppointment st uid aid f).2 := by
  unfold completeAppointment
  cases hF : findFacultyByUser st uid with
  | none => exact h
  | some fp =>
    obtain ⟨fid, faculty⟩ := fp
    cases hL : List.lookup aid st.appointments with
    | none => exact h
    | some appointment =>
      dsimp only
      by_cases h1 : appointment.faculty ≠ fid
      · rw [if_pos h1]; exact h
      rw [if_neg h1]
      by_cases h2 : appointment.status ≠ Status.accepted
      · rw [if_pos h2]; exact h
      rw [if_neg h2]
      have hacc : appointment.status = Status.accepted := not_not.mp h2
      have hInv2 : SlotInv (freeSlot (updAppt st aid
          { appointment with status := Status.completed }) appointment.availability) :=
        slotInv_updAppt_release st aid appointment _ h hL rfl
          (by simp [isNonTerminal, hacc]) (by simp [isNonTerminal])
      repeat' split
      all_goals first | exact h | exact hInv2

/-! ## Success inversion lemmas -/

theorem bookAppointment_success (st : Store) (uid fid avid d : Nat) (p : String)
    (f : Bool) (r : Resp) (st' : Store)
    (hEq : bookAppointment st uid fid avid d p f = (r, st'))
    (hc : r.code = 201) :
    ∃ sid student faculty availability,
      findStudentByUser st uid = some (sid, student) ∧
      List.lookup fid st.faculties = some faculty ∧
      List.lookup avid st.availabilities = some availability ∧
      availability.isBooked = false ∧
      r.data = some st.nextAppointmentId ∧
      st' = (bookMutate st sid student fid faculty avid availability d p).2 := by
  unfold bookAppointment at hEq
  cases hS : findStudentByUser st uid with
  | none =>
    rw [hS] at hEq
    obtain ⟨hr, -⟩ := pair_eq_parts hEq
    rw [hr] at hc
    simp [mkErr] at hc
  | some sp =>
    obtain ⟨sid, student⟩ := sp
    rw [hS] at hEq
    cases hF : List.lookup fid st.faculties with
    | none =>
      rw [hF] at hEq
      obtain ⟨hr, -⟩ := pair_eq_parts hEq
      rw [hr] at hc
      simp [mkErr] at hc
    | some faculty =>
      rw [hF] at hEq
      cases hA : List.lookup avid st.availabilities with
      | none =>
        rw [hA] at hEq
        obtain ⟨hr, -⟩ := pair_eq_parts hEq
        rw [hr] at hc
        simp [mkErr] at hc
      | some availability =>
        rw [hA] at hEq
        try dsimp only at hEq
        by_cases hb1 : availability.faculty ≠ fid
        · rw [if_pos hb1] at hEq
          obtain ⟨hr, -⟩ := pair_eq_parts hEq
          rw [hr] at hc
          simp [mkErr] at hc
        rw [if_neg hb1] at hEq
        by_cases hb2 : ¬availability.isActive
        · rw [if_pos hb2] at hEq
          obtain ⟨hr, -⟩ := pair_eq_parts hEq
          rw [hr] at hc
          simp [mkErr] at hc
        rw [if_neg hb2] at hEq
        by_cases hb3 : availability.isBooked = true
        · rw [if_pos hb3] at hEq
          obtain ⟨hr, -⟩ := pair_eq_parts hEq
          rw [hr] at hc
          simp [mkErr] at hc
        rw [if_neg hb3] at hEq
        have hB : availability.isBooked = false := by simpa using hb3
        cases hC : findConflict st sid d with
        | some c =>
          rw [hC] at hEq
          obtain ⟨hr, -⟩ := pair_eq_parts hEq
          rw [hr] at hc
          simp [mkErr] at hc
        | none =>
          rw [hC] at hEq
          try dsimp only at hEq
          cases hval : appointmentValid (mkAppointment sid fid avid d availability p) with
          | false =>
            rw [hval] at hEq
            rw [if_pos (by simp)] at hEq
            obtain ⟨hr, -⟩ := pair_eq_parts hEq
            rw [hr] at hc
            simp [mkErr] at hc
          | true =>
            rw [hval] at hEq
            rw [if_neg (by simp)] at hEq
            rcases hM : bookMutate st sid student fid faculty avid availability d p
              with ⟨aid, st4⟩
            rw [hM] at hEq
            try dsimp only at hEq
            cases hU1 : List.lookup student.user st4.users with
            | none =>
              rw [hU1] at hEq
              obtain ⟨hr, -⟩ := pair_eq_parts hEq
              rw [hr] at hc
              simp [mkErr] at hc
            | some su =>
              rw [hU1] at hEq
              cases hU2 : List.lookup faculty.user st4.users with
              | none =>
                rw [hU2] at hEq
                obtain ⟨hr, -⟩ := pair_eq_parts hEq
                rw [hr] at hc
                simp [mkErr] at hc
              | some fu =>
                rw [hU2] at hEq
                simp only [sendAppointmentEmail_ok] at hEq
                obtain ⟨hr, hst⟩ := pair_eq_parts hEq
                refine ⟨sid, student, faculty, availability, rfl, rfl, rfl, hB, ?_, ?_⟩
                · rw [hr]
                  have : (bookMutate st sid student fid faculty avid availability d p).1
                      = aid := by rw [hM]
                  rw [← this, bookMutate_fst]
                · rw [hst]
                  have : (bookMutate st sid student fid faculty avid availability d p).2
                      = st4 := by rw [hM]
                  rw [this]

theorem updateStatus_accept_success (st : Store) (uid aid : Nat)
    (reason : Option String) (f : Bool) (r : Resp) (st' : Store)
    (hEq : updateAppointmentStatus st uid aid "accepted" reason f = (r, st'))
    (hc : r.code = 200) :
    ∃ appointment, List.lookup aid st.appointments = some appointment ∧
      appointment.status = Status.pending ∧
      st' = updAppt st aid
        { appointment with
          status := Status.accepted,
          cancelReason := appointment.cancelReason } ∧
      List.lookup aid st'.appointments = some
        { appointment with
          status := Status.accepted,
          cancelReason := appointment.cancelReason } ∧
      st'.availabilities = st.availabilities := by
  unfold updateAppointmentStatus at hEq
  rw [if_neg (by decide :
    ¬¬(("accepted" : String) = "accepted" ∨ ("accepted" : String) = "rejected"))] at hEq
  cases hF : findFacultyByUser st uid with
  | none =>
    rw [hF] at hEq
    obtain ⟨hr, -⟩ := pair_eq_parts hEq
    rw [hr] at hc
    simp [mkErr] at hc
  | some fp =>
    obtain ⟨fid, faculty⟩ := fp
    rw [hF] at hEq
    cases hL : List.lookup aid st.appointments with
    | none =>
      rw [hL] at hEq
      obtain ⟨hr, -⟩ := pair_eq_parts hEq
      rw [hr] at hc
      simp [mkErr] at hc
    | some appointment =>
      rw [hL] at hEq
      try dsimp only at hEq
      by_cases hb1 : appointment.faculty ≠ fid
      · rw [if_pos hb1] at hEq
        obtain ⟨hr, -⟩ := pair_eq_parts hEq
        rw [hr] at hc
        simp [mkErr] at hc
      rw [if_neg hb1] at hEq
      by_cases hb2 : appointment.status ≠ Status.pending
      · rw [if_pos hb2] at hEq
        obtain ⟨hr, -⟩ := pair_eq_parts hEq
        rw [hr] at hc
        simp [mkErr] at hc
      rw [if_neg hb2] at hEq
      have hp : appointment.status = Status.pending := not_not.mp hb2
      rw [if_pos (rfl : ("accepted" : String) = "accepted"),
          if_neg (by decide : ¬ ("accepted" : String) = "rejected"),
          if_neg (by decide : ¬ ("accepted" : String) = "rejected")] at hEq
      cases hval : appointmentValid
          { appointment with
            status := Status.accepted,
            cancelReason := appointment.cancelReason } with
      | false =>
        rw [hval] at hEq
        rw [if_pos (by simp)] at hEq
        obtain ⟨hr, -⟩ := pair_eq_parts hEq
        rw [hr] at hc
        simp [mkErr] at hc
      | true =>
        rw [hval] at hEq
        rw [if_neg (by simp)] at hEq
        try dsimp only at hEq
        cases hSt : List.lookup appointment.student
            (updAppt st aid
              { appointment with
                status := Status.accepted,
                cancelReason := appointment.cancelReason }).students with
        | none =>
          rw [hSt] at hEq
          obtain ⟨hr, -⟩ := pair_eq_parts hEq
          rw [hr] at hc
          simp [mkErr] at hc
        | some stu =>
          rw [hSt] at hEq
          try dsimp only at hEq
          cases hU : List.lookup stu.user
              (updAppt st aid
                { appointment with
                  status := Status.accepted,
                  cancelReason := appointment.cancelReason }).users with
          | none =>
            rw [hU] at hEq
            obtain ⟨hr, -⟩ := pair_eq_parts hEq
            rw [hr] at hc
            simp [mkErr] at hc
          | some su =>
            rw [hU] at hEq
            simp only [sendAppointmentEmail_ok] at hEq
            obtain ⟨hr, hst⟩ := pair_eq_parts hEq
            refine ⟨appointment, rfl, hp, hst, ?_, ?_⟩
            · rw [hst, updAppt_appointments, lookup_setEntry_self, hL]
              rfl
            · rw [hst, updAppt_availabilities]

theorem completeAppointment_success (st : Store) (uid aid : Nat) (f : Bool)
    (r : Resp) (st' : Store)
    (hEq : completeAppointment st uid aid f = (r, st'))
    (hc : r.code = 200) :
    ∃ appointment, List.lookup aid st.appointments = some appointment ∧
      appointment.status = Status.accepted ∧
      st' = freeSlot (updAppt st aid { appointment with status := Status.completed })
        appointment.availability ∧
      ∀ av, List.lookup appointment.availability st.availabilities = some av →
        List.lookup appointment.availability st'.availabilities =
          some { av with isBooked := false } := by
  unfold completeAppointment at hEq
  cases hF : findFacultyByUser st uid with
  | none =>
    rw [hF] at hEq
    obtain ⟨hr, -⟩ := pair_eq_parts hEq
    rw [hr] at hc
    simp [mkErr] at hc
  | some fp =>
    obtain ⟨fid, faculty⟩ := fp
    rw [hF] at hEq
    cases hL : List.lookup aid st.appointments with
    | none =>
      rw [hL] at hEq
      obtain ⟨hr, -⟩ := pair_eq_parts hEq
      rw [hr] at hc
      simp [mkErr] at hc
    | some appointment =>
      rw [hL] at hEq
      try dsimp only at hEq
      by_cases hb1 : appointment.faculty ≠ fid
      · rw [if_pos hb1] at hEq
        obtain ⟨hr, -⟩ := pair_eq_parts hEq
        rw [hr] at hc
        simp [mkErr] at hc
      rw [if_neg hb1] at hEq
      by_cases hb2 : appointment.status ≠ Status.accepted
      · rw [if_pos hb2] at hEq
        obtain ⟨hr, -⟩ := pair_eq_parts hEq
        rw [hr] at hc
        simp [mkErr] at hc
      rw [if_neg hb2] at hEq
      have hacc : appointment.status = Status.accepted := not_not.mp hb2
      cases hval : appointmentValid { appointment with status := Status.completed } with
      | false =>
        rw [hval] at hEq
        rw [if_pos (by simp)] at hEq
        obtain ⟨hr, -⟩ := pair_eq_parts hEq
        rw [hr] at hc
        simp [mkErr] at hc
      | true =>
        rw [hval] at hEq
        rw [if_neg (by simp)] at hEq
        try dsimp only at hEq
        cases hSt : List.lookup appointment.student
            (freeSlot (updAppt st aid { appointment with status := Status.completed })
              appointment.availability).students with
        | none =>
          rw [hSt] at hEq
          obtain ⟨hr, -⟩ := pair_eq_parts hEq
          rw [hr] at hc
          simp [mkErr] at hc
        | some stu =>
          rw [hSt] at hEq
          try dsimp only at hEq
          cases hU : List.lookup stu.user
              (freeSlot (updAppt st aid { appointment with status := Status.completed })
                appointment.availability).users with
          | none =>
            rw [hU] at hEq
            obtain ⟨hr, -⟩ := pair_eq_parts hEq
            rw [hr] at hc
            simp [mkErr] at hc
          | some su =>
            rw [hU] at hEq
            simp only [sendAppointmentEmail_ok] at hEq
            obtain ⟨hr, hst⟩ := pair_eq_parts hEq
            refine ⟨appointment, rfl, hacc, hst, ?_⟩
            intro av hAv
            rw [hst]
            have hl2 : List.lookup appointment.availability
                (updAppt st aid
                  { appointment with status := Status.completed }).availabilities
                = some av := by rw [updAppt_availabilities]; exact hAv
            unfold freeSlot
            rw [hl2]
            try dsimp only
            rw [updAvail_availabilities, lookup_setEntry_self, hl2]
            rfl

theorem book_accept_complete_frees_slot
    (st : Store) (u1 u2 u3 fid avid d : Nat) (p : String) (f1 f2 f3 : Bool)
    {r1 r2 r3 : Resp} {st1 st2 st3 : Store} {aid : Nat}
    (h1 : bookAppointment st u1 fid avid d p f1 = (r1, st1)) (hc1 : r1.code = 201)
    (hd : r1.data = some aid)
    (h2 : updateAppointmentStatus st1 u2 aid "accepted" none f2 = (r2, st2))
    (hc2 : r2.code = 200)
    (h3 : completeAppointment st2 u3 aid f3 = (r3, st3)) (hc3 : r3.code = 200) :
    ∃ availability, List.lookup avid st3.availabilities = some availability ∧
      availability.isBooked = false := by
  obtain ⟨sid, student, faculty, availability, hS, hF, hA, hB, hdata, hst1⟩ :=
    bookAppointment_success st u1 fid avid d p f1 r1 st1 h1 hc1
  rw [hdata] at hd
  have haid : aid = st.nextAppointmentId := (Option.some.inj hd).symm
  subst haid
  have hL1 : List.lookup st.nextAppointmentId st1.appointments =
      some (mkAppointment sid fid avid d availability p) := by
    rw [hst1, bookMutate_appointments, List.lookup_cons]
    simp
  have hav1 : st1.availabilities =
      setEntry avid { availability with isBooked := true } st.availabilities := by
    rw [hst1, bookMutate_availabilities]
  obtain ⟨app2, hL2, hp2, hst2, hL2b, hav2⟩ :=
    updateStatus_accept_success st1 u2 st.nextAppointmentId none f2 r2 st2 h2 hc2
  rw [hL1] at hL2
  obtain rfl := Option.some.inj hL2
  obtain ⟨app3, hL3, hacc3, hst3, hfree⟩ :=
    completeAppointment_success st2 u3 st.nextAppointmentId f3 r3 st3 h3 hc3
  rw [hL2b] at hL3
  obtain rfl := Option.some.inj hL3
  have hlook2 : List.lookup avid st2.availabilities =
      some { availability with isBooked := true } := by
    rw [hav2, hav1, lookup_setEntry_self, hA]
    rfl
  have hfin := hfree { availability with isBooked := true } (by exact hlook2)
  exact ⟨_, hfin, rfl⟩

/-! ## Claim C1 -/

/-- Step 1 of the invariant-breaking run: student 10 books slot 30. -/
def c1Chain1 : Store := (bookAppointment raceSt 1 20 30 5 "Thesis help" false).2

/-- Step 2: faculty 20 accepts appointment 100. -/
def c1Chain2 : Store := (updateAppointmentStatus c1Chain1 2 100 "accepted" none false).2

/-- Step 3: faculty 20 completes appointment 100, freeing slot 30. -/
def c1Chain3 : Store := (completeAppointment c1Chain2 2 100 false).2

/-- Step 4: student 11 books the freed slot 30 again (appointment 101). -/
def c1Chain4 : Store := (bookAppointment c1Chain3 3 20 30 6 "Review" false).2

/-- Step 5: student 10 cancels the already completed appointment 100, which
the controller permits and which sets slot 30 back to unbooked. -/
def c1Chain5 : Store := (cancelAppointment c1Chain4 1 100 none false).2

/-- Claim C1, counterexample: the slot-consistency invariant is violated by a
run of the controllers themselves.  Starting from a store satisfying the
invariant, the five lifecycle calls book, accept, complete, book (by a second
student), cancel-the-completed-appointment all succeed, and leave slot 30
with isBooked = false even though the pending appointment 101 references it,
so isBooked is no longer equivalent to the existence of a pending or accepted
appointment on the slot. -/
theorem C1_counterexample :
    SlotInv raceSt ∧
    (bookAppointment raceSt 1 20 30 5 "Thesis help" false).1.code = 201 ∧
    (updateAppointmentStatus c1Chain1 2 100 "accepted" none false).1.code = 200 ∧
    (completeAppointment c1Chain2 2 100 false).1.code = 200 ∧
    (bookAppointment c1Chain3 3 20 30 6 "Review" false).1.code = 201 ∧
    (cancelAppointment c1Chain4 1 100 none false).1.code = 200 ∧
    (List.lookup 100 c1Chain5.appointments).map Appointment.status =
      some Status.cancelled ∧
    (List.lookup 101 c1Chain5.appointments).map Appointment.status =
      some Status.pending ∧
    (List.lookup 30 c1Chain5.availabilities).map Availability.isBooked =
      some false ∧
    ¬ SlotInv c1Chain5 := by
  decide

/-- Claim C1 (amended): the slot-consistency invariant — isBooked iff a
pending or accepted appointment references the slot, and at most one such
appointment per slot — is preserved by bookAppointment,
updateAppointmentStatus and completeAppointment, and by cancelAppointment
whenever the cancelled appointment is not completed (the controller also
lets an owner cancel a completed appointment, and that call frees the slot
regardless of other appointments, breaking the invariant).  Moreover the
round trip book, then updateStatus(accepted), then complete, when each call
succeeds, leaves the booked slot with isBooked = false. -/
theorem C1_amended_slot_consistency :
    (∀ st uid fid avid d p f, SlotInv st →
        SlotInv (bookAppointment st uid fid avid d p f).2) ∧
    (∀ st uid aid status reason f, SlotInv st →
        SlotInv (updateAppointmentStatus st uid aid status reason f).2) ∧
    (∀ st uid aid f, SlotInv st → SlotInv (completeAppointment st uid aid f).2) ∧
    (∀ st uid aid reason f, SlotInv st →
        (∀ a, List.lookup aid st.appointments = some a →
          a.status ≠ Status.completed) →
        SlotInv (cancelAppointment st uid aid reason f).2) ∧
    (∀ (st : Store) (u1 u2 u3 fid avid d : Nat) (p : String) (f1 f2 f3 : Bool)
        (r1 r2 r3 : Resp) (st1 st2 st3 : Store) (aid : Nat),
        bookAppointment st u1 fid avid d p f1 = (r1, st1) → r1.code = 201 →
        r1.data = some aid →
        updateAppointmentStatus st1 u2 aid "accepted" none f2 = (r2, st2) →
        r2.code = 200 →
        completeAppointment st2 u3 aid f3 = (r3, st3) → r3.code = 200 →
        ∃ availability, List.lookup avid st3.availabilities = some availability ∧
          availability.isBooked = false) := by
  refine ⟨?_, ?_, ?_, ?_, ?_⟩
  · exact fun st uid fid avid d p f h => slotInv_bookAppointment st uid fid avid d p f h
  · exact fun st uid aid status reason f h =>
      slotInv_updateAppointmentStatus st uid aid status reason f h
  · exact fun st uid aid f h => slotInv_completeAppointment st uid aid f h
  · exact fun st uid aid reason f h hterm =>
      slotInv_cancelAppointment st uid aid reason f h hterm
  · exact fun st u1 u2 u3 fid avid d p f1 f2 f3 r1 r2 r3 st1 st2 st3 aid
      h1 hc1 hd h2 hc2 h3 hc3 =>
      book_accept_complete_frees_slot st u1 u2 u3 fid avid d p f1 f2 f3
        h1 hc1 hd h2 hc2 h3 hc3

/-- First step of the successful round trip used by the C1 witness. -/
def c1w1 : Resp × Store := bookAppointment st0 1 20 30 5 "Project" false

/-- Second step of the successful round trip used by the C1 witness. -/
def c1w2 : Resp × Store := updateAppointmentStatus c1w1.2 2 100 "accepted" none false

/-- Third step of the successful round trip used by the C1 witness. -/
def c1w3 : Resp × Store := completeAppointment c1w2.2 2 100 false

/-- Witness for the amended claim C1 at concrete inputs. -/
theorem C1_amended_witness :
    SlotInv (bookAppointment st0 1 20 30 5 "Project" false).2 ∧
    SlotInv (cancelAppointment stMix 1 40 none false).2 ∧
    (∃ availability, List.lookup 30 c1w3.2.availabilities = some availability ∧
      availability.isBooked = false) := by
  refine ⟨?_, ?_, ?_⟩
  · exact C1_amended_slot_consistency.1 st0 1 20 30 5 "Project" false (by decide)
  · exact C1_amended_slot_consistency.2.2.2.1 stMix 1 40 none false (by decide)
      (by decide)
  · exact C1_amended_slot_consistency.2.2.2.2 st0 1 2 2 20 30 5 "Project"
      false false false c1w1.1 c1w2.1 c1w3.1 c1w1.2 c1w2.2 c1w3.2 100
      rfl (by decide) (by decide) rfl (by decide) rfl (by decide)

/-! ## Claim C2 -/

/-- Claim C2: two book requests on the same slot whose validation reads both
happen before either write (the interleaving the non-transactional source
permits) BOTH pass their checks and BOTH commit, leaving two pending
appointments referencing slot 30 — not one created appointment and one
Conflict rejection, and not at-most-one non-terminal appointment per slot.
The fourth conjunct ties the commit model to the controller: on the same
snapshot, the controller's own write effect equals bookCommit. -/
theorem C2_race_two_appointments :
    (bookAppointment raceSt 1 20 30 5 "Thesis help" false).1.code = 201 ∧
    bookChecksPass raceSt 1 20 30 5 "Thesis help" = true ∧
    bookChecksPass raceSt 3 20 30 5 "Thesis help" = true ∧
    bookCommit raceSt 1 20 30 5 "Thesis help" =
      (bookAppointment raceSt 1 20 30 5 "Thesis help" false).2 ∧
    (slotAppsL (bookCommit (bookCommit raceSt 1 20 30 5 "Thesis help")
        3 20 30 5 "Thesis help").appointments 30).length = 2 ∧
    ¬ SlotInv (bookCommit (bookCommit raceSt 1 20 30 5 "Thesis help")
        3 20 30 5 "Thesis help") := by
  decide

/-! ## Failure-path helper lemmas -/

theorem updateAppointmentStatus_not_pending (st : Store) (uid aid : Nat)
    (status : String) (reason : Option String) (f : Bool) (a : Appointment)
    (hL : List.lookup aid st.appointments = some a)
    (hnp : a.status ≠ Status.pending) :
    (updateAppointmentStatus st uid aid status reason f).1.success = false ∧
    (updateAppointmentStatus st uid aid status reason f).2 = st := by
  unfold updateAppointmentStatus
  by_cases hv : status = "accepted" ∨ status = "rejected"
  · rw [if_neg (not_not_intro hv)]
    cases hF : findFacultyByUser st uid with
    | none => exact ⟨rfl, rfl⟩
    | some fp =>
      obtain ⟨fid, faculty⟩ := fp
      rw [hL]
      dsimp only
      by_cases hb1 : a.faculty ≠ fid
      · rw [if_pos hb1]; exact ⟨rfl, rfl⟩
      rw [if_neg hb1, if_pos hnp]
      exact ⟨rfl, rfl⟩
  · rw [if_pos hv]; exact ⟨rfl, rfl⟩

theorem completeAppointment_not_accepted (st : Store) (uid aid : Nat) (f : Bool)
    (a : Appointment) (hL : List.lookup aid st.appointments = some a)
    (hna : a.status ≠ Status.accepted) :
    (completeAppointment st uid aid f).1.success = false ∧
    (completeAppointment st uid aid f).2 = st := by
  unfold completeAppointment
  cases hF : findFacultyByUser st uid with
  | none => exact ⟨rfl, rfl⟩
  | some fp =>
    obtain ⟨fid, faculty⟩ := fp
    rw [hL]
    dsimp only
    by_cases hb1 : a.faculty ≠ fid
    · rw [if_pos hb1]; exact ⟨rfl, rfl⟩
    rw [if_neg hb1, if_pos hna]
    exact ⟨rfl, rfl⟩

theorem cancelAppointment_cancelled (st : Store) (uid aid : Nat)
    (reason : Option String) (f : Bool) (a : Appointment)
    (hL : List.lookup aid st.appointments = some a)
    (hc : a.status = Status.cancelled) :
    cancelAppointment st uid aid reason f =
      (mkErr 400 "Appointment is already cancelled", st) := by
  unfold cancelAppointment
  rw [hL]
  dsimp only
  rw [if_pos hc]

theorem cancelAppointment_rejected (st : Store) (uid aid : Nat)
    (reason : Option String) (f : Bool) (a : Appointment)
    (hL : List.lookup aid st.appointments = some a)
    (hr : a.status = Status.rejected) :
    cancelAppointment st uid aid reason f =
      (mkErr 400 "Cannot cancel a rejected appointment", st) := by
  unfold cancelAppointment
  rw [hL]
  dsimp only
  rw [if_neg (by simp [hr]), if_pos hr]

/-! ## Claim C3 -/

/-- Claim C3, counterexample: a completed appointment is terminal by the
claim, yet cancelAppointment by its owning student succeeds on it and
changes its status to cancelled (appointment 44 of stMix). -/
theorem C3_counterexample :
    (List.lookup 44 stMix.appointments).map Appointment.status =
      some Status.completed ∧
    (cancelAppointment stMix 1 44 none false).1.success = true ∧
    (List.lookup 44 (cancelAppointment stMix 1 44 none false).2.appointments).map
      Appointment.status = some Status.cancelled := by
  decide

/-- Claim C3 (amended): updateStatus and complete on an appointment in any
terminal state (rejected, cancelled, completed) always fail and leave the
whole store unchanged; cancel always fails and leaves the store unchanged on
a cancelled or rejected appointment — but not on a completed one, which the
code still allows to be cancelled. -/
theorem C3_amended_terminal_freeze :
    (∀ st uid aid status reason f a, List.lookup aid st.appointments = some a →
        (a.status = Status.rejected ∨ a.status = Status.cancelled ∨
          a.status = Status.completed) →
        (updateAppointmentStatus st uid aid status reason f).1.success = false ∧
        (updateAppointmentStatus st uid aid status reason f).2 = st) ∧
    (∀ st uid aid f a, List.lookup aid st.appointments = some a →
        (a.status = Status.rejected ∨ a.status = Status.cancelled ∨
          a.status = Status.completed) →
        (completeAppointment st uid aid f).1.success = false ∧
        (completeAppointment st uid aid f).2 = st) ∧
    (∀ st uid aid reason f a, List.lookup aid st.appointments = some a →
        (a.status = Status.rejected ∨ a.status = Status.cancelled) →
        (cancelAppointment st uid aid reason f).1.success = false ∧
        (cancelAppointment st uid aid reason f).2 = st) := by
  refine ⟨?_, ?_, ?_⟩
  · intro st uid aid status reason f a hL hterm
    exact updateAppointmentStatus_not_pending st uid aid status reason f a hL
      (by rcases hterm with h | h | h <;> simp [h])
  · intro st uid aid f a hL hterm
    exact completeAppointment_not_accepted st uid aid f a hL
      (by rcases hterm with h | h | h <;> simp [h])
  · intro st uid aid reason f a hL hterm
    rcases hterm with h | h
    · rw [cancelAppointment_rejected st uid aid reason f a hL h]
      exact ⟨rfl, rfl⟩
    · rw [cancelAppointment_cancelled st uid aid reason f a hL h]
      exact ⟨rfl, rfl⟩

/-- Witness for the amended claim C3 at concrete inputs (stMix holds a
completed appointment 44 and a rejected appointment 42). -/
theorem C3_amended_witness :
    ((updateAppointmentStatus stMix 2 44 "accepted" none false).1.success = false ∧
      (updateAppointmentStatus stMix 2 44 "accepted" none false).2 = stMix) ∧
    ((completeAppointment stMix 2 44 false).1.success = false ∧
      (completeAppointment stMix 2 44 false).2 = stMix) ∧
    ((cancelAppointment stMix 1 42 none false).1.success = false ∧
      (cancelAppointment stMix 1 42 none false).2 = stMix) := by
  refine ⟨?_, ?_, ?_⟩
  · exact C3_amended_terminal_freeze.1 stMix 2 44 "accepted" none false
      ⟨10, 20, 34, 9, "13:00", "14:00", "Wrap up", .completed, none, none⟩
      (by decide) (by decide)
  · exact C3_amended_terminal_freeze.2.1 stMix 2 44 false
      ⟨10, 20, 34, 9, "13:00", "14:00", "Wrap up", .completed, none, none⟩
      (by decide) (by decide)
  · exact C3_amended_terminal_freeze.2.2 stMix 1 42 none false
      ⟨10, 20, 32, 7, "11:00", "12:00", "Grade query", .rejected, none,
        some "conflict"⟩
      (by decide) (by decide)

/-! ## Claim C10 -/

/-- Claim C10: cancelAppointment checks the appointment's terminal status
before resolving or authorizing the caller, so on an already cancelled or
rejected appointment every caller — whatever user id, owner or not — gets
the 400 status-conflict response with the appointment-status message, never
a 403 Forbidden or 404 NotFound authorization error, and the store is
unchanged. -/
theorem C10_cancel_status_checked_before_actor :
    ∀ st uid aid reason f a, List.lookup aid st.appointments = some a →
      (a.status = Status.cancelled →
        cancelAppointment st uid aid reason f =
          (mkErr 400 "Appointment is already cancelled", st)) ∧
      (a.status = Status.rejected →
        cancelAppointment st uid aid reason f =
          (mkErr 400 "Cannot cancel a rejected appointment", st)) := by
  intro st uid aid reason f a hL
  exact ⟨fun hc => cancelAppointment_cancelled st uid aid reason f a hL hc,
    fun hr => cancelAppointment_rejected st uid aid reason f a hL hr⟩

/-- Witness for claim C10: user 99 owns nothing in stMix (it is not even a
registered student or faculty user), yet cancelling the cancelled
appointment 43 or the rejected appointment 42 yields the status-conflict
response, not an authorization error. -/
theorem C10_witness :
    cancelAppointment stMix 99 43 none false =
      (mkErr 400 "Appointment is already cancelled", stMix) ∧
    cancelAppointment stMix 99 42 none false =
      (mkErr 400 "Cannot cancel a rejected appointment", stMix) := by
  constructor
  · exact (C10_cancel_status_checked_before_actor stMix 99 43 none false
      ⟨10, 20, 33, 8, "12:00", "13:00", "Advice", .cancelled, some .student, none⟩
      (by decide)).1 (by decide)
  · exact (C10_cancel_status_checked_before_actor stMix 99 42 none false
      ⟨10, 20, 32, 7, "11:00", "12:00", "Grade query", .rejected, none,
        some "conflict"⟩
      (by decide)).2 (by decide)

/-! ## Claim C5 -/

/-- Claim C5: updateStatus called with a valid status argument, by the
faculty owning the appointment, on an appointment that is not pending, fails
with the 400 conflict response whose message states the current status
("Appointment is already X"), and neither the appointment nor the
availability slot — indeed nothing in the store — is mutated. -/
theorem C5_updateStatus_non_pending_conflict :
    ∀ st uid aid status reason f fid faculty a,
      (status = "accepted" ∨ status = "rejected") →
      findFacultyByUser st uid = some (fid, faculty) →
      List.lookup aid st.appointments = some a →
      a.faculty = fid →
      a.status ≠ Status.pending →
      updateAppointmentStatus st uid aid status reason f =
        (mkErr 400 ("Appointment is already " ++ statusStr a.status), st) := by
  intro st uid aid status reason f fid faculty a hv hF hL hown hnp
  unfold updateAppointmentStatus
  rw [if_neg (not_not_intro hv), hF, hL]
  dsimp only
  rw [if_neg (not_not_intro hown), if_pos hnp]

/-- Witness for claim C5: faculty 20 (user 2) tries to accept its own
already accepted appointment 41 of stMix. -/
theorem C5_witness :
    updateAppointmentStatus stMix 2 41 "accepted" none false =
      (mkErr 400 "Appointment is already accepted", stMix) := by
  exact C5_updateStatus_non_pending_conflict stMix 2 41 "accepted" none false 20
    ⟨2, "Dr Rao", [40, 41, 42, 43, 44]⟩
    ⟨10, 20, 31, 6, "10:00", "11:00", "Project review", .accepted, none, none⟩
    (Or.inl rfl) (by decide) (by decide) (by decide) (by decide)

/-! ## Claim C8 -/

/-- Claim C8: whether a raw notification delivery throws has no effect
whatsoever on any lifecycle controller's outcome: response and resulting
store are identical for a failing and a working sink, because
sendAppointmentEmail (modelled from the spec: utils/sendEmail.js is outside
src/, and the spec prescribes fire-and-forget delivery with errors swallowed)
absorbs the transport error, so the controllers' catch-all 500 path is never
taken on account of a notification. -/
theorem C8_notification_failure_harmless :
    (∀ st uid fid avid d p f1 f2,
      bookAppointment st uid fid avid d p f1 =
        bookAppointment st uid fid avid d p f2) ∧
    (∀ st uid aid status reason f1 f2,
      updateAppointmentStatus st uid aid status reason f1 =
        updateAppointmentStatus st uid aid status reason f2) ∧
    (∀ st uid aid reason f1 f2,
      cancelAppointment st uid aid reason f1 =
        cancelAppointment st uid aid reason f2) ∧
    (∀ st uid aid f1 f2,
      completeAppointment st uid aid f1 = completeAppointment st uid aid f2) := by
  refine ⟨?_, ?_, ?_, ?_⟩
  · intro st uid fid avid d p f1 f2
    cases f1 <;> cases f2 <;> rfl
  · intro st uid aid status reason f1 f2
    cases f1 <;> cases f2 <;> rfl
  · intro st uid aid reason f1 f2
    cases f1 <;> cases f2 <;> rfl
  · intro st uid aid f1 f2
    cases f1 <;> cases f2 <;> rfl

/-! ## Claim C4 -/

@[simp] theorem bookMutate_students (st : Store) (sid : Nat) (student : Student)
    (fid : Nat) (faculty : Faculty) (avid : Nat) (availability : Availability)
    (d : Nat) (p : String) :
    (bookMutate st sid student fid faculty avid availability d p).2.students =
      setEntry sid
        { student with appointments := student.appointments ++ [st.nextAppointmentId] }
        st.students := rfl

@[simp] theorem bookMutate_faculties (st : Store) (sid : Nat) (student : Student)
    (fid : Nat) (faculty : Faculty) (avid : Nat) (availability : Availability)
    (d : Nat) (p : String) :
    (bookMutate st sid student fid faculty avid availability d p).2.faculties =
      setEntry fid
        { faculty with appointments := faculty.appointments ++ [st.nextAppointmentId] }
        st.faculties := rfl

theorem bookAppointment_success_eq (st : Store) (uid fid avid d : Nat) (p : String)
    (f : Bool) (sid : Nat) (student : Student) (faculty : Faculty)
    (availability : Availability) (suser fuser : User)
    (hS : findStudentByUser st uid = some (sid, student))
    (hF : List.lookup fid st.faculties = some faculty)
    (hA : List.lookup avid st.availabilities = some availability)
    (hbel : availability.faculty = fid)
    (hact : availability.isActive = true)
    (hbook : availability.isBooked = false)
    (hC : findConflict st sid d = none)
    (hval : appointmentValid (mkAppointment sid fid avid d availability p) = true)
    (hU1 : List.lookup student.user st.users = some suser)
    (hU2 : List.lookup faculty.user st.users = some fuser) :
    bookAppointment st uid fid avid d p f =
      ({ code := 201, success := true,
         message := "Appointment booked successfully",
         data := some st.nextAppointmentId },
       (bookMutate st sid student fid faculty avid availability d p).2) := by
  unfold bookAppointment
  rw [hS, hF, hA]
  dsimp only
  rw [if_neg (not_not_intro hbel), if_neg (by simp [hact]),
      if_neg (by simp [hbook]), hC]
  dsimp only
  rw [if_neg (by simp [hval])]
  rcases hM : bookMutate st sid student fid faculty avid availability d p
    with ⟨aid, st4⟩
  dsimp only
  have haid : aid = st.nextAppointmentId := by
    have h := congrArg Prod.fst hM
    simp only [bookMutate_fst] at h
    exact h.symm
  subst haid
  have husers : st4.users = st.users := by
    have h := congrArg (fun x : Nat × Store => x.2.users) hM
    simp only [bookMutate_users] at h
    exact h.symm
  rw [show List.lookup student.user st4.users = some suser by rw [husers]; exact hU1]
  dsimp only
  rw [show List.lookup faculty.user st4.users = some fuser by rw [husers]; exact hU2]
  dsimp only
  cases f <;> rfl

/-- Claim C4: bookAppointment checks its preconditions in a fixed order with
the first failure winning — availability exists, availability belongs to the
faculty, availability is active, availability is not booked, then the
date-only double-booking guard (findConflict matches only student, stored
date and non-terminal status, never the time range) — and when all pass it
creates the pending appointment with times copied from the availability,
marks the slot booked, and appends the new id to the student's and faculty's
appointment lists. -/
theorem C4_book_precondition_order_and_effects :
    (∀ st uid fid avid d p f sid student faculty,
        findStudentByUser st uid = some (sid, student) →
        List.lookup fid st.faculties = some faculty →
        List.lookup avid st.availabilities = none →
        bookAppointment st uid fid avid d p f =
          (mkErr 404 "Availability slot not found", st)) ∧
    (∀ st uid fid avid d p f sid student faculty availability,
        findStudentByUser st uid = some (sid, student) →
        List.lookup fid st.faculties = some faculty →
        List.lookup avid st.availabilities = some availability →
        availability.faculty ≠ fid →
        bookAppointment st uid fid avid d p f =
          (mkErr 400 "Availability slot does not belong to this faculty", st)) ∧
    (∀ st uid fid avid d p f sid student faculty availability,
        findStudentByUser st uid = some (sid, student) →
        List.lookup fid st.faculties = some faculty →
        List.lookup avid st.availabilities = some availability →
        availability.faculty = fid →
        availability.isActive = false →
        bookAppointment st uid fid avid d p f =
          (mkErr 400 "Availability slot is not active", st)) ∧
    (∀ st uid fid avid d p f sid student faculty availability,
        findStudentByUser st uid = some (sid, student) →
        List.lookup fid st.faculties = some faculty →
        List.lookup avid st.availabilities = some availability →
        availability.faculty = fid →
        availability.isActive = true →
        availability.isBooked = true →
        bookAppointment st uid fid avid d p f =
          (mkErr 400 "Availability slot is already booked", st)) ∧
    (∀ st uid fid avid d p f sid student faculty availability c,
        findStudentByUser st uid = some (sid, student) →
        List.lookup fid st.faculties = some faculty →
        List.lookup avid st.availabilities = some availability →
        availability.faculty = fid →
        availability.isActive = true →
        availability.isBooked = false →
        findConflict st sid d = some c →
        bookAppointment st uid fid avid d p f =
          (mkErr 400 "You already have an appointment at this time", st)) ∧
    (∀ st uid fid avid d p f sid student faculty availability suser fuser,
        findStudentByUser st uid = some (sid, student) →
        List.lookup fid st.faculties = some faculty →
        List.lookup avid st.availabilities = some availability →
        availability.faculty = fid →
        availability.isActive = true →
        availability.isBooked = false →
        findConflict st sid d = none →
        appointmentValid (mkAppointment sid fid avid d availability p) = true →
        List.lookup sid st.students = some student →
        List.lookup student.user st.users = some suser →
        List.lookup faculty.user st.users = some fuser →
        (bookAppointment st uid fid avid d p f).1 =
          { code := 201, success := true,
            message := "Appointment booked successfully",
            data := some st.nextAppointmentId } ∧
        List.lookup st.nextAppointmentId
            (bookAppointment st uid fid avid d p f).2.appointments =
          some ⟨sid, fid, avid, d, availability.startTime, availability.endTime,
            p, Status.pending, none, none⟩ ∧
        List.lookup avid (bookAppointment st uid fid avid d p f).2.availabilities =
          some { availability with isBooked := true } ∧
        List.lookup sid (bookAppointment st uid fid avid d p f).2.students =
          some { student with
            appointments := student.appointments ++ [st.nextAppointmentId] } ∧
        List.lookup fid (bookAppointment st uid fid avid d p f).2.faculties =
          some { faculty with
            appointments := faculty.appointments ++ [st.nextAppointmentId] }) := by
  refine ⟨?_, ?_, ?_, ?_, ?_, ?_⟩
  · intro st uid fid avid d p f sid student faculty hS hF hA
    unfold bookAppointment
    rw [hS, hF, hA]
  · intro st uid fid avid d p f sid student faculty availability hS hF hA hne
    unfold bookAppointment
    rw [hS, hF, hA]
    dsimp only
    rw [if_pos hne]
  · intro st uid fid avid d p f sid student faculty availability hS hF hA hbel hin
    unfold bookAppointment
    rw [hS, hF, hA]
    dsimp only
    rw [if_neg (not_not_intro hbel), if_pos (by simp [hin])]
  · intro st uid fid avid d p f sid student faculty availability hS hF hA hbel
      hact hbk
    unfold bookAppointment
    rw [hS, hF, hA]
    dsimp only
    rw [if_neg (not_not_intro hbel), if_neg (by simp [hact]), if_pos hbk]
  · intro st uid fid avid d p f sid student faculty availability c hS hF hA hbel
      hact hbk hC
    unfold bookAppointment
    rw [hS, hF, hA]
    dsimp only
    rw [if_neg (not_not_intro hbel), if_neg (by simp [hact]),
      if_neg (by simp [hbk]), hC]
  · intro st uid fid avid d p f sid student faculty availability suser fuser
      hS hF hA hbel hact hbk hC hval hSl hU1 hU2
    have heq := bookAppointment_success_eq st uid fid avid d p f sid student
      faculty availability suser fuser hS hF hA hbel hact hbk hC hval hU1 hU2
    refine ⟨?_, ?_, ?_, ?_, ?_⟩
    · rw [heq]
    · rw [heq]
      show List.lookup st.nextAppointmentId
        ((st.nextAppointmentId, mkAppointment sid fid avid d availability p) ::
          st.appointments) = _
      rw [List.lookup_cons]
      simp [mkAppointment]
    · rw [heq]
      show List.lookup avid (setEntry avid { availability with isBooked := true }
        st.availabilities) = _
      rw [lookup_setEntry_self, hA]
      rfl
    · rw [heq]
      show List.lookup sid (setEntry sid
        { student with appointments := student.appointments ++ [st.nextAppointmentId] }
        st.students) = _
      rw [lookup_setEntry_self, hSl]
      rfl
    · rw [heq]
      show List.lookup fid (setEntry fid
        { faculty with appointments := faculty.appointments ++ [st.nextAppointmentId] }
        st.faculties) = _
      rw [lookup_setEntry_self, hF]
      rfl

/-- Store exhibiting each bookAppointment failure: slot 36 belongs to the
other faculty, slot 37 is inactive (and also booked, so the not-active check
is seen to win), slot 38 is booked. -/
def stC4 : Store :=
  { users := [(1, ⟨"asha@campus.edu"⟩), (2, ⟨"rao@campus.edu"⟩),
              (4, ⟨"b@campus.edu"⟩)],
    students := [(10, ⟨1, "Asha", []⟩)],
    faculties := [(20, ⟨2, "Dr Rao", []⟩), (21, ⟨4, "Dr B", []⟩)],
    availabilities :=
      [(30, ⟨20, "Monday", "09:00", "10:00", true, false⟩),
       (36, ⟨21, "Monday", "09:00", "10:00", true, false⟩),
       (37, ⟨20, "Tuesday", "10:00", "11:00", false, true⟩),
       (38, ⟨20, "Wednesday", "11:00", "12:00", true, true⟩)],
    appointments := [],
    nextAppointmentId := 100 }

/-- Witness for claim C4 at concrete inputs.  The conflict case books slot
32 of stMix (11:00-12:00) while the student's pending appointment 40 is at
09:00-10:00 on the same date, showing the guard compares the date only, not
the time range. -/
theorem C4_witness :
    bookAppointment stC4 1 20 99 5 "Project" false =
      (mkErr 404 "Availability slot not found", stC4) ∧
    bookAppointment stC4 1 20 36 5 "Project" false =
      (mkErr 400 "Availability slot does not belong to this faculty", stC4) ∧
    bookAppointment stC4 1 20 37 5 "Project" false =
      (mkErr 400 "Availability slot is not active", stC4) ∧
    bookAppointment stC4 1 20 38 5 "Project" false =
      (mkErr 400 "Availability slot is already booked", stC4) ∧
    bookAppointment stMix 1 20 32 5 "Project" false =
      (mkErr 400 "You already have an appointment at this time", stMix) ∧
    ((bookAppointment st0 1 20 30 5 "Project" false).1 =
        { code := 201, success := true,
          message := "Appointment booked successfully", data := some 100 } ∧
      List.lookup 100 (bookAppointment st0 1 20 30 5 "Project" false).2.appointments =
        some ⟨10, 20, 30, 5, "09:00", "10:00", "Project", Status.pending,
          none, none⟩ ∧
      List.lookup 30 (bookAppointment st0 1 20 30 5 "Project" false).2.availabilities =
        some ⟨20, "Monday", "09:00", "10:00", true, true⟩ ∧
      List.lookup 10 (bookAppointment st0 1 20 30 5 "Project" false).2.students =
        some ⟨1, "Asha", [100]⟩ ∧
      List.lookup 20 (bookAppointment st0 1 20 30 5 "Project" false).2.faculties =
        some ⟨2, "Dr Rao", [100]⟩) := by
  refine ⟨?_, ?_, ?_, ?_, ?_, ?_⟩
  · exact C4_book_precondition_order_and_effects.1 stC4 1 20 99 5 "Project" false
      10 ⟨1, "Asha", []⟩ ⟨2, "Dr Rao", []⟩ (by decide) (by decide) (by decide)
  · exact C4_book_precondition_order_and_effects.2.1 stC4 1 20 36 5 "Project" false
      10 ⟨1, "Asha", []⟩ ⟨2, "Dr Rao", []⟩ ⟨21, "Monday", "09:00", "10:00", true, false⟩
      (by decide) (by decide) (by decide) (by decide)
  · exact C4_book_precondition_order_and_effects.2.2.1 stC4 1 20 37 5 "Project"
      false 10 ⟨1, "Asha", []⟩ ⟨2, "Dr Rao", []⟩
      ⟨20, "Tuesday", "10:00", "11:00", false, true⟩
      (by decide) (by decide) (by decide) (by decide) (by decide)
  · exact C4_book_precondition_order_and_effects.2.2.2.1 stC4 1 20 38 5 "Project"
      false 10 ⟨1, "Asha", []⟩ ⟨2, "Dr Rao", []⟩
      ⟨20, "Wednesday", "11:00", "12:00", true, true⟩
      (by decide) (by decide) (by decide) (by decide) (by decide) (by decide)
  · exact C4_book_precondition_order_and_effects.2.2.2.2.1 stMix 1 20 32 5
      "Project" false 10 ⟨1, "Asha", [40, 41, 42, 43, 44]⟩
      ⟨2, "Dr Rao", [40, 41, 42, 43, 44]⟩
      ⟨20, "Wednesday", "11:00", "12:00", true, false⟩
      (40, ⟨10, 20, 30, 5, "09:00", "10:00", "Thesis help", .pending, none, none⟩)
      (by decide) (by decide) (by decide) (by decide) (by decide) (by decide)
      (by decide)
  · exact C4_book_precondition_order_and_effects.2.2.2.2.2 st0 1 20 30 5 "Project"
      false 10 ⟨1, "Asha", []⟩ ⟨2, "Dr Rao", []⟩
      ⟨20, "Monday", "09:00", "10:00", true, false⟩
      ⟨"asha@campus.edu"⟩ ⟨"rao@campus.edu"⟩
      (by decide) (by decide) (by decide) (by decide) (by decide) (by decide)
      (by decide) (by decide) (by decide) (by decide) (by decide)

/-! ## Success-path helper lemmas for the transition controllers -/

theorem appointmentValid_newReason (a : Appointment) (s : Status) (cb : Option Role)
    (r : String) (hva : appointmentValid a = true) (hr : r.length ≤ 200) :
    appointmentValid
      { a with status := s, cancelledBy := cb, cancelReason := some r } =
      true := by
  unfold appointmentValid at hva ⊢
  simp only [Bool.and_eq_true] at hva ⊢
  exact ⟨hva.1, by simp [hr]⟩

theorem appointmentValid_keepReason (a : Appointment) (s : Status) (cb : Option Role)
    (hva : appointmentValid a = true) :
    appointmentValid
      { a with
        status := s,
        cancelledBy := cb,
        cancelReason := a.cancelReason } = true := by
  unfold appointmentValid at hva ⊢
  simp only [Bool.and_eq_true] at hva ⊢
  exact ⟨hva.1, hva.2⟩

theorem freeSlot_updAppt_students (st : Store) (aid : Nat) (v : Appointment)
    (k : Nat) : (freeSlot (updAppt st aid v) k).students = st.students := by
  rw [freeSlot_students, updAppt_students]

theorem freeSlot_updAppt_faculties (st : Store) (aid : Nat) (v : Appointment)
    (k : Nat) : (freeSlot (updAppt st aid v) k).faculties = st.faculties := by
  rw [freeSlot_faculties, updAppt_faculties]

theorem freeSlot_updAppt_users (st : Store) (aid : Nat) (v : Appointment)
    (k : Nat) : (freeSlot (updAppt st aid v) k).users = st.users := by
  rw [freeSlot_users, updAppt_users]

theorem freeSlot_updAppt_appointments (st : Store) (aid : Nat) (v : Appointment)
    (k : Nat) : (freeSlot (updAppt st aid v) k).appointments =
      setEntry aid v st.appointments := by
  rw [freeSlot_appointments, updAppt_appointments]

theorem freeSlot_updAppt_lookup_slot (st : Store) (aid : Nat) (v : Appointment)
    (k : Nat) (av : Availability)
    (hAv : List.lookup k st.availabilities = some av) :
    List.lookup k (freeSlot (updAppt st aid v) k).availabilities =
      some { av with isBooked := false } := by
  have hl : List.lookup k (updAppt st aid v).availabilities = some av := by
    rw [updAppt_availabilities]; exact hAv
  unfold freeSlot
  rw [hl]
  try dsimp only
  rw [updAvail_availabilities, lookup_setEntry_self, hl]
  rfl

theorem freeSlot_updAppt_slot_missing (st : Store) (aid : Nat) (v : Appointment)
    (k : Nat) (hAv : List.lookup k st.availabilities = none) :
    (freeSlot (updAppt st aid v) k).availabilities = st.availabilities := by
  have hl : List.lookup k (updAppt st aid v).availabilities = none := by
    rw [updAppt_availabilities]; exact hAv
  unfold freeSlot
  rw [hl]
  rfl

theorem cancelFinish_eq (st : Store) (aid : Nat) (a : Appointment) (role : Role)
    (reason : Option String) (f : Bool) (stuObj : Student) (facObj : Faculty)
    (su fu : User)
    (hva : appointmentValid a = true)
    (hrlen : ∀ r, reason = some r → r.length ≤ 200)
    (hSt : List.lookup a.student st.students = some stuObj)
    (hFa : List.lookup a.faculty st.faculties = some facObj)
    (hU1 : List.lookup stuObj.user st.users = some su)
    (hU2 : List.lookup facObj.user st.users = some fu) :
    cancelFinish st aid a role reason f =
      ({ code := 200, success := true,
         message := "Appointment cancelled successfully", data := some aid },
       freeSlot (updAppt st aid
         { a with
           status := Status.cancelled,
           cancelledBy := some role,
           cancelReason := (match reason with
             | some r => some r
             | none => a.cancelReason) }) a.availability) := by
  unfold cancelFinish
  cases reason with
  | some r =>
    try dsimp only
    have hv1 := appointmentValid_newReason a .cancelled (some role) r hva
      (hrlen r rfl)
    rw [if_neg (not_not_intro hv1)]
    try dsimp only
    rw [freeSlot_updAppt_students, hSt]
    try dsimp only
    rw [freeSlot_updAppt_faculties, hFa]
    try dsimp only
    rw [freeSlot_updAppt_users, hU1]
    try dsimp only
    rw [hU2]
    try dsimp only
    cases f <;> rfl
  | none =>
    try dsimp only
    have hv1 := appointmentValid_keepReason a .cancelled (some role) hva
    rw [if_neg (not_not_intro hv1)]
    try dsimp only
    rw [freeSlot_updAppt_students, hSt]
    try dsimp only
    rw [freeSlot_updAppt_faculties, hFa]
    try dsimp only
    rw [freeSlot_updAppt_users, hU1]
    try dsimp only
    rw [hU2]
    try dsimp only
    cases f <;> rfl

theorem cancelAppointment_student_dispatch (st : Store) (uid aid : Nat)
    (reason : Option String) (f : Bool) (a : Appointment) (sid : Nat)
    (student : Student)
    (hL : List.lookup aid st.appointments = some a)
    (hnc : a.status ≠ Status.cancelled) (hnr : a.status ≠ Status.rejected)
    (hS : findStudentByUser st uid = some (sid, student))
    (hown : a.student = sid) :
    cancelAppointment st uid aid reason f =
      cancelFinish st aid a .student reason f := by
  unfold cancelAppointment
  rw [hL]
  dsimp only
  rw [if_neg hnc, if_neg hnr, hS]
  dsimp only
  rw [if_neg (not_not_intro hown)]

theorem cancelAppointment_faculty_dispatch (st : Store) (uid aid : Nat)
    (reason : Option String) (f : Bool) (a : Appointment) (fid : Nat)
    (faculty : Faculty)
    (hL : List.lookup aid st.appointments = some a)
    (hnc : a.status ≠ Status.cancelled) (hnr : a.status ≠ Status.rejected)
    (hSn : findStudentByUser st uid = none)
    (hF : findFacultyByUser st uid = some (fid, faculty))
    (hown : a.faculty = fid) :
    cancelAppointment st uid aid reason f =
      cancelFinish st aid a .faculty reason f := by
  unfold cancelAppointment
  rw [hL]
  dsimp only
  rw [if_neg hnc, if_neg hnr, hSn]
  dsimp only
  rw [hF]
  dsimp only
  rw [if_neg (not_not_intro hown)]

theorem completeAppointment_eq (st : Store) (uid aid : Nat) (f : Bool)
    (fid : Nat) (faculty : Faculty) (a : Appointment) (stuObj : Student) (su : User)
    (hF : findFacultyByUser st uid = some (fid, faculty))
    (hL : List.lookup aid st.appointments = some a)
    (hown : a.faculty = fid)
    (hacc : a.status = Status.accepted)
    (hva : appointmentValid a = true)
    (hSt : List.lookup a.student st.students = some stuObj)
    (hU : List.lookup stuObj.user st.users = some su) :
    completeAppointment st uid aid f =
      ({ code := 200, success := true,
         message := "Appointment marked as completed", data := some aid },
       freeSlot (updAppt st aid { a with status := Status.completed })
         a.availability) := by
  unfold completeAppointment
  rw [hF, hL]
  dsimp only
  rw [if_neg (not_not_intro hown), if_neg (not_not_intro hacc)]
  have hv1 : appointmentValid { a with status := Status.completed } = true :=
    appointmentValid_keepReason a .completed a.cancelledBy hva
  rw [if_neg (not_not_intro hv1)]
  try dsimp only
  rw [freeSlot_updAppt_students, hSt]
  try dsimp only
  rw [freeSlot_updAppt_users, hU]
  try dsimp only
  cases f <;> rfl

theorem updateStatus_reject_eq (st : Store) (uid aid : Nat)
    (reason : Option String) (f : Bool) (fid : Nat) (faculty : Faculty)
    (a : Appointment) (stuObj : Student) (su : User)
    (hF : findFacultyByUser st uid = some (fid, faculty))
    (hL : List.lookup aid st.appointments = some a)
    (hown : a.faculty = fid)
    (hp : a.status = Status.pending)
    (hva : appointmentValid a = true)
    (hrlen : ∀ r, reason = some r → r.length ≤ 200)
    (hSt : List.lookup a.student st.students = some stuObj)
    (hU : List.lookup stuObj.user st.users = some su) :
    updateAppointmentStatus st uid aid "rejected" reason f =
      ({ code := 200, success := true,
         message := "Appointment rejected successfully", data := some aid },
       freeSlot (updAppt st aid
         { a with
           status := Status.rejected,
           cancelReason := (match reason with
             | some r => some r
             | none => a.cancelReason) }) a.availability) := by
  unfold updateAppointmentStatus
  rw [if_neg (by decide :
    ¬¬(("rejected" : String) = "accepted" ∨ ("rejected" : String) = "rejected"))]
  rw [hF, hL]
  dsimp only
  rw [if_neg (not_not_intro hown), if_neg (not_not_intro hp)]
  rw [if_neg (by decide : ¬ ("rejected" : String) = "accepted"),
      if_pos (rfl : ("rejected" : String) = "rejected"),
      if_pos (rfl : ("rejected" : String) = "rejected")]
  cases reason with
  | some r =>
    try dsimp only
    have hv1 := appointmentValid_newReason a .rejected a.cancelledBy r hva
      (hrlen r rfl)
    rw [if_neg (not_not_intro hv1)]
    try dsimp only
    rw [freeSlot_updAppt_students, hSt]
    try dsimp only
    rw [freeSlot_updAppt_users, hU]
    try dsimp only
    cases f <;> rfl
  | none =>
    try dsimp only
    have hv1 := appointmentValid_keepReason a .rejected a.cancelledBy hva
    rw [if_neg (not_not_intro hv1)]
    try dsimp only
    rw [freeSlot_updAppt_students, hSt]
    try dsimp only
    rw [freeSlot_updAppt_users, hU]
    try dsimp only
    cases f <;> rfl

/-! ## Claim C6 -/

/-- Claim C6: cancel on a rejected appointment always fails (for every
caller, with the store unchanged); cancel on a pending or accepted
appointment by the owning student — the student lookup is probed first — or,
when the caller has no student record, by the owning faculty, succeeds:
status becomes cancelled, cancelledBy records the resolved role, the
optional reason is stored, and the slot's isBooked is set to false. -/
theorem C6_cancel_rejected_fails_owner_succeeds :
    (∀ st uid aid reason f a, List.lookup aid st.appointments = some a →
        a.status = Status.rejected →
        cancelAppointment st uid aid reason f =
          (mkErr 400 "Cannot cancel a rejected appointment", st)) ∧
    (∀ st uid aid reason f a sid student stuObj facObj su fu,
        List.lookup aid st.appointments = some a →
        (a.status = Status.pending ∨ a.status = Status.accepted) →
        findStudentByUser st uid = some (sid, student) →
        a.student = sid →
        appointmentValid a = true →
        (∀ r, reason = some r → r.length ≤ 200) →
        List.lookup a.student st.students = some stuObj →
        List.lookup a.faculty st.faculties = some facObj →
        List.lookup stuObj.user st.users = some su →
        List.lookup facObj.user st.users = some fu →
        (cancelAppointment st uid aid reason f).1 =
          { code := 200, success := true,
            message := "Appointment cancelled successfully", data := some aid } ∧
        List.lookup aid (cancelAppointment st uid aid reason f).2.appointments =
          some { a with
            status := Status.cancelled,
            cancelledBy := some Role.student,
            cancelReason := (match reason with
              | some r => some r
              | none => a.cancelReason) } ∧
        (∀ av, List.lookup a.availability st.availabilities = some av →
          List.lookup a.availability
              (cancelAppointment st uid aid reason f).2.availabilities =
            some { av with isBooked := false })) ∧
    (∀ st uid aid reason f a fid faculty stuObj facObj su fu,
        List.lookup aid st.appointments = some a →
        (a.status = Status.pending ∨ a.status = Status.accepted) →
        findStudentByUser st uid = none →
        findFacultyByUser st uid = some (fid, faculty) →
        a.faculty = fid →
        appointmentValid a = true →
        (∀ r, reason = some r → r.length ≤ 200) →
        List.lookup a.student st.students = some stuObj →
        List.lookup a.faculty st.faculties = some facObj →
        List.lookup stuObj.user st.users = some su →
        List.lookup facObj.user st.users = some fu →
        (cancelAppointment st uid aid reason f).1 =
          { code := 200, success := true,
            message := "Appointment cancelled successfully", data := some aid } ∧
        List.lookup aid (cancelAppointment st uid aid reason f).2.appointments =
          some { a with
            status := Status.cancelled,
            cancelledBy := some Role.faculty,
            cancelReason := (match reason with
              | some r => some r
              | none => a.cancelReason) } ∧
        (∀ av, List.lookup a.availability st.availabilities = some av →
          List.lookup a.availability
              (cancelAppointment st uid aid reason f).2.availabilities =
            some { av with isBooked := false })) := by
  refine ⟨?_, ?_, ?_⟩
  · intro st uid aid reason f a hL hr
    exact cancelAppointment_rejected st uid aid reason f a hL hr
  · intro st uid aid reason f a sid student stuObj facObj su fu hL hstat hS hown
      hva hrlen hSt hFa hU1 hU2
    have hnc : a.status ≠ Status.cancelled := by rcases hstat with h | h <;> simp [h]
    have hnr : a.status ≠ Status.rejected := by rcases hstat with h | h <;> simp [h]
    have hd := cancelAppointment_student_dispatch st uid aid reason f a sid student
      hL hnc hnr hS hown
    have he := cancelFinish_eq st aid a .student reason f stuObj facObj su fu
      hva hrlen hSt hFa hU1 hU2
    rw [hd, he]
    refine ⟨rfl, ?_, ?_⟩
    · try dsimp only
      rw [freeSlot_updAppt_appointments, lookup_setEntry_self, hL]
      cases reason <;> rfl
    · intro av hAv
      try dsimp only
      exact freeSlot_updAppt_lookup_slot st aid _ a.availability av hAv
  · intro st uid aid reason f a fid faculty stuObj facObj su fu hL hstat hSn hF
      hown hva hrlen hSt hFa hU1 hU2
    have hnc : a.status ≠ Status.cancelled := by rcases hstat with h | h <;> simp [h]
    have hnr : a.status ≠ Status.rejected := by rcases hstat with h | h <;> simp [h]
    have hd := cancelAppointment_faculty_dispatch st uid aid reason f a fid faculty
      hL hnc hnr hSn hF hown
    have he := cancelFinish_eq st aid a .faculty reason f stuObj facObj su fu
      hva hrlen hSt hFa hU1 hU2
    rw [hd, he]
    refine ⟨rfl, ?_, ?_⟩
    · try dsimp only
      rw [freeSlot_updAppt_appointments, lookup_setEntry_self, hL]
      cases reason <;> rfl
    · intro av hAv
      try dsimp only
      exact freeSlot_updAppt_lookup_slot st aid _ a.availability av hAv

/-- Witness for claim C6: cancelling rejected appointment 42 fails; student
(user 1) cancels pending appointment 40 freeing slot 30; faculty (user 2,
who has no student record) cancels accepted appointment 41 with a reason,
freeing slot 31. -/
theorem C6_witness :
    cancelAppointment stMix 1 42 none false =
      (mkErr 400 "Cannot cancel a rejected appointment", stMix) ∧
    ((cancelAppointment stMix 1 40 none false).1 =
      { code := 200, success := true,
        message := "Appointment cancelled successfully", data := some 40 } ∧
      List.lookup 40 (cancelAppointment stMix 1 40 none false).2.appointments =
        some ⟨10, 20, 30, 5, "09:00", "10:00", "Thesis help", Status.cancelled,
          some Role.student, none⟩ ∧
      List.lookup 30 (cancelAppointment stMix 1 40 none false).2.availabilities =
        some ⟨20, "Monday", "09:00", "10:00", true, false⟩) ∧
    ((cancelAppointment stMix 2 41 (some "sick") false).1 =
      { code := 200, success := true,
        message := "Appointment cancelled successfully", data := some 41 } ∧
      List.lookup 41 (cancelAppointment stMix 2 41 (some "sick") false).2.appointments =
        some ⟨10, 20, 31, 6, "10:00", "11:00", "Project review", Status.cancelled,
          some Role.faculty, some "sick"⟩ ∧
      List.lookup 31 (cancelAppointment stMix 2 41 (some "sick") false).2.availabilities =
        some ⟨20, "Tuesday", "10:00", "11:00", true, false⟩) := by
  refine ⟨?_, ?_, ?_⟩
  · exact C6_cancel_rejected_fails_owner_succeeds.1 stMix 1 42 none false
      ⟨10, 20, 32, 7, "11:00", "12:00", "Grade query", .rejected, none,
        some "conflict"⟩ (by decide) (by decide)
  · have h := C6_cancel_rejected_fails_owner_succeeds.2.1 stMix 1 40 none false
      ⟨10, 20, 30, 5, "09:00", "10:00", "Thesis help", .pending, none, none⟩
      10 ⟨1, "Asha", [40, 41, 42, 43, 44]⟩ ⟨1, "Asha", [40, 41, 42, 43, 44]⟩
      ⟨2, "Dr Rao", [40, 41, 42, 43, 44]⟩ ⟨"asha@campus.edu"⟩ ⟨"rao@campus.edu"⟩
      (by decide) (Or.inl rfl) (by decide) (by decide) (by decide)
      (fun r hr => nomatch hr) (by decide) (by decide) (by decide) (by decide)
    exact ⟨h.1, h.2.1, h.2.2 ⟨20, "Monday", "09:00", "10:00", true, true⟩ (by decide)⟩
  · have h := C6_cancel_rejected_fails_owner_succeeds.2.2 stMix 2 41 (some "sick")
      false
      ⟨10, 20, 31, 6, "10:00", "11:00", "Project review", .accepted, none, none⟩
      20 ⟨2, "Dr Rao", [40, 41, 42, 43, 44]⟩ ⟨1, "Asha", [40, 41, 42, 43, 44]⟩
      ⟨2, "Dr Rao", [40, 41, 42, 43, 44]⟩ ⟨"asha@campus.edu"⟩ ⟨"rao@campus.edu"⟩
      (by decide) (Or.inr rfl) (by decide) (by decide) (by decide) (by decide)
      (fun r hr => by cases hr; decide) (by decide) (by decide) (by decide)
      (by decide)
    exact ⟨h.1, h.2.1, h.2.2 ⟨20, "Tuesday", "10:00", "11:00", true, true⟩ (by decide)⟩

/-! ## Claim C7 -/

/-- Claim C7: complete succeeds only on an appointment owned by the calling
faculty whose status is accepted; from any other status it fails with the
400 conflict whose message reports the current status, leaving the store
unchanged; on success it sets status = completed and the slot's isBooked to
false. -/
theorem C7_complete_requires_accepted :
    (∀ st uid aid f fid faculty a,
        findFacultyByUser st uid = some (fid, faculty) →
        List.lookup aid st.appointments = some a →
        a.faculty = fid →
        a.status ≠ Status.accepted →
        completeAppointment st uid aid f =
          (mkErr 400
            ("Appointment must be accepted before it can be completed. Current status: "
              ++ statusStr a.status), st)) ∧
    (∀ st uid aid f fid faculty a stuObj su,
        findFacultyByUser st uid = some (fid, faculty) →
        List.lookup aid st.appointments = some a →
        a.faculty = fid →
        a.status = Status.accepted →
        appointmentValid a = true →
        List.lookup a.student st.students = some stuObj →
        List.lookup stuObj.user st.users = some su →
        (completeAppointment st uid aid f).1 =
          { code := 200, success := true,
            message := "Appointment marked as completed", data := some aid } ∧
        List.lookup aid (completeAppointment st uid aid f).2.appointments =
          some { a with status := Status.completed } ∧
        (∀ av, List.lookup a.availability st.availabilities = some av →
          List.lookup a.availability
              (completeAppointment st uid aid f).2.availabilities =
            some { av with isBooked := false })) := by
  constructor
  · intro st uid aid f fid faculty a hF hL hown hna
    unfold completeAppointment
    rw [hF, hL]
    dsimp only
    rw [if_neg (not_not_intro hown), if_pos hna]
  · intro st uid aid f fid faculty a stuObj su hF hL hown hacc hva hSt hU
    have he := completeAppointment_eq st uid aid f fid faculty a stuObj su
      hF hL hown hacc hva hSt hU
    rw [he]
    refine ⟨rfl, ?_, ?_⟩
    · try dsimp only
      rw [freeSlot_updAppt_appointments, lookup_setEntry_self, hL]
      rfl
    · intro av hAv
      try dsimp only
      exact freeSlot_updAppt_lookup_slot st aid _ a.availability av hAv

/-- Witness for claim C7: faculty 20 (user 2) cannot complete the pending
appointment 40 (message reports "pending"); completing the accepted
appointment 41 succeeds and frees slot 31. -/
theorem C7_witness :
    completeAppointment stMix 2 40 false =
      (mkErr 400
        "Appointment must be accepted before it can be completed. Current status: pending",
        stMix) ∧
    ((completeAppointment stMix 2 41 false).1 =
      { code := 200, success := true,
        message := "Appointment marked as completed", data := some 41 } ∧
      List.lookup 41 (completeAppointment stMix 2 41 false).2.appointments =
        some ⟨10, 20, 31, 6, "10:00", "11:00", "Project review", Status.completed,
          none, none⟩ ∧
      List.lookup 31 (completeAppointment stMix 2 41 false).2.availabilities =
        some ⟨20, "Tuesday", "10:00", "11:00", true, false⟩) := by
  constructor
  · exact C7_complete_requires_accepted.1 stMix 2 40 false 20
      ⟨2, "Dr Rao", [40, 41, 42, 43, 44]⟩
      ⟨10, 20, 30, 5, "09:00", "10:00", "Thesis help", .pending, none, none⟩
      (by decide) (by decide) (by decide) (by decide)
  · have h := C7_complete_requires_accepted.2 stMix 2 41 false 20
      ⟨2, "Dr Rao", [40, 41, 42, 43, 44]⟩
      ⟨10, 20, 31, 6, "10:00", "11:00", "Project review", .accepted, none, none⟩
      ⟨1, "Asha", [40, 41, 42, 43, 44]⟩ ⟨"asha@campus.edu"⟩
      (by decide) (by decide) (by decide) (by decide) (by decide) (by decide)
      (by decide)
    exact ⟨h.1, h.2.1, h.2.2 ⟨20, "Tuesday", "10:00", "11:00", true, true⟩ (by decide)⟩

/-! ## Claim C9 -/

/-- Claim C9: when the availability slot referenced by an appointment no
longer exists in the store, updateStatus(rejected), cancel, and complete
still succeed: the status transition is written and the slot-release step is
silently skipped, leaving the availabilities collection untouched. -/
theorem C9_missing_slot_release_skipped :
    (∀ st uid aid reason f fid faculty a stuObj su,
        findFacultyByUser st uid = some (fid, faculty) →
        List.lookup aid st.appointments = some a →
        a.faculty = fid →
        a.status = Status.pending →
        appointmentValid a = true →
        (∀ r, reason = some r → r.length ≤ 200) →
        List.lookup a.student st.students = some stuObj →
        List.lookup stuObj.user st.users = some su →
        List.lookup a.availability st.availabilities = none →
        (updateAppointmentStatus st uid aid "rejected" reason f).1.success = true ∧
        (List.lookup aid
            (updateAppointmentStatus st uid aid "rejected" reason f).2.appointments).map
          Appointment.status = some Status.rejected ∧
        (updateAppointmentStatus st uid aid "rejected" reason f).2.availabilities =
          st.availabilities) ∧
    (∀ st uid aid reason f a sid student stuObj facObj su fu,
        List.lookup aid st.appointments = some a →
        (a.status = Status.pending ∨ a.status = Status.accepted) →
        findStudentByUser st uid = some (sid, student) →
        a.student = sid →
        appointmentValid a = true →
        (∀ r, reason = some r → r.length ≤ 200) →
        List.lookup a.student st.students = some stuObj →
        List.lookup a.faculty st.faculties = some facObj →
        List.lookup stuObj.user st.users = some su →
        List.lookup facObj.user st.users = some fu →
        List.lookup a.availability st.availabilities = none →
        (cancelAppointment st uid aid reason f).1.success = true ∧
        (List.lookup aid
            (cancelAppointment st uid aid reason f).2.appointments).map
          Appointment.status = some Status.cancelled ∧
        (cancelAppointment st uid aid reason f).2.availabilities =
          st.availabilities) ∧
    (∀ st uid aid f fid faculty a stuObj su,
        findFacultyByUser st uid = some (fid, faculty) →
        List.lookup aid st.appointments = some a →
        a.faculty = fid →
        a.status = Status.accepted →
        appointmentValid a = true →
        List.lookup a.student st.students = some stuObj →
        List.lookup stuObj.user st.users = some su →
        List.lookup a.availability st.availabilities = none →
        (completeAppointment st uid aid f).1.success = true ∧
        (List.lookup aid
            (completeAppointment st uid aid f).2.appointments).map
          Appointment.status = some Status.completed ∧
        (completeAppointment st uid aid f).2.availabilities =
          st.availabilities) := by
  refine ⟨?_, ?_, ?_⟩
  · intro st uid aid reason f fid faculty a stuObj su hF hL hown hp hva hrlen
      hSt hU hAv
    have he := updateStatus_reject_eq st uid aid reason f fid faculty a stuObj su
      hF hL hown hp hva hrlen hSt hU
    rw [he]
    refine ⟨rfl, ?_, ?_⟩
    · try dsimp only
      rw [freeSlot_updAppt_appointments, lookup_setEntry_self, hL]
      cases reason <;> rfl
    · try dsimp only
      exact freeSlot_updAppt_slot_missing st aid _ a.availability hAv
  · intro st uid aid reason f a sid student stuObj facObj su fu hL hstat hS hown
      hva hrlen hSt hFa hU1 hU2 hAv
    have hnc : a.status ≠ Status.cancelled := by rcases hstat with h | h <;> simp [h]
    have hnr : a.status ≠ Status.rejected := by rcases hstat with h | h <;> simp [h]
    have hd := cancelAppointment_student_dispatch st uid aid reason f a sid student
      hL hnc hnr hS hown
    have he := cancelFinish_eq st aid a .student reason f stuObj facObj su fu
      hva hrlen hSt hFa hU1 hU2
    rw [hd, he]
    refine ⟨rfl, ?_, ?_⟩
    · try dsimp only
      rw [freeSlot_updAppt_appointments, lookup_setEntry_self, hL]
      cases reason <;> rfl
    · try dsimp only
      exact freeSlot_updAppt_slot_missing st aid _ a.availability hAv
  · intro st uid aid f fid faculty a stuObj su hF hL hown hacc hva hSt hU hAv
    have he := completeAppointment_eq st uid aid f fid faculty a stuObj su
      hF hL hown hacc hva hSt hU
    rw [he]
    refine ⟨rfl, ?_, ?_⟩
    · try dsimp only
      rw [freeSlot_updAppt_appointments, lookup_setEntry_self, hL]
      rfl
    · try dsimp only
      exact freeSlot_updAppt_slot_missing st aid _ a.availability hAv

/-- Witness for claim C9 on stNoSlot, whose appointments 45 (pending) and 46
(accepted) reference the absent slot 77. -/
theorem C9_witness :
    ((updateAppointmentStatus stNoSlot 2 45 "rejected" (some "busy") false).1.success = true ∧
      (List.lookup 45
          (updateAppointmentStatus stNoSlot 2 45 "rejected" (some "busy") false).2.appointments).map
        Appointment.status = some Status.rejected ∧
      (updateAppointmentStatus stNoSlot 2 45 "rejected" (some "busy") false).2.availabilities =
        stNoSlot.availabilities) ∧
    ((cancelAppointment stNoSlot 1 45 none false).1.success = true ∧
      (List.lookup 45 (cancelAppointment stNoSlot 1 45 none false).2.appointments).map
        Appointment.status = some Status.cancelled ∧
      (cancelAppointment stNoSlot 1 45 none false).2.availabilities =
        stNoSlot.availabilities) ∧
    ((completeAppointment stNoSlot 2 46 false).1.success = true ∧
      (List.lookup 46 (completeAppointment stNoSlot 2 46 false).2.appointments).map
        Appointment.status = some Status.completed ∧
      (completeAppointment stNoSlot 2 46 false).2.availabilities =
        stNoSlot.availabilities) := by
  refine ⟨?_, ?_, ?_⟩
  · exact C9_missing_slot_release_skipped.1 stNoSlot 2 45 (some "busy") false 20
      ⟨2, "Dr Rao", [45, 46]⟩
      ⟨10, 20, 77, 5, "09:00", "10:00", "Thesis help", .pending, none, none⟩
      ⟨1, "Asha", [45, 46]⟩ ⟨"asha@campus.edu"⟩
      (by decide) (by decide) (by decide) (by decide) (by decide)
      (fun r hr => by cases hr; decide) (by decide) (by decide) (by decide)
  · exact C9_missing_slot_release_skipped.2.1 stNoSlot 1 45 none false
      ⟨10, 20, 77, 5, "09:00", "10:00", "Thesis help", .pending, none, none⟩
      10 ⟨1, "Asha", [45, 46]⟩ ⟨1, "Asha", [45, 46]⟩ ⟨2, "Dr Rao", [45, 46]⟩
      ⟨"asha@campus.edu"⟩ ⟨"rao@campus.edu"⟩
      (by decide) (Or.inl rfl) (by decide) (by decide) (by decide)
      (fun r hr => nomatch hr) (by decide) (by decide) (by decide) (by decide)
      (by decide)
  · exact C9_missing_slot_release_skipped.2.2 stNoSlot 2 46 false 20
      ⟨2, "Dr Rao", [45, 46]⟩
      ⟨10, 20, 77, 6, "10:00", "11:00", "Project review", .accepted, none, none⟩
      ⟨1, "Asha", [45, 46]⟩ ⟨"asha@campus.edu"⟩
      (by decide) (by decide) (by decide) (by decide) (by decide) (by decide)
      (by decide) (by decide)
